import Mathlib

/-!
# Verification of the bevy-ruby frame-synchronization bridge

Shallow embedding of the Ruby↔Bevy bridge of `ydah/bevy-ruby`:
the per-kind entity synchronizers (`src/crates/bevy/src/sprite_renderer.rs`,
`text_renderer.rs`, `mesh_renderer.rs`), the input bridge
(`src/crates/bevy/src/input_bridge.rs`), the engine-side bridge state and
frame systems (`src/crates/bevy/src/render_app.rs`) and the Ruby-side
staging layer (`src/ext/bevy/src/ruby_render_app.rs`).

Modelling conventions:
* `f32`/`f64` values are modelled as rationals (`ℚ`); the bridge only moves,
  copies, compares and linearly combines them, so exact arithmetic is faithful.
* `f32::sin_cos`, used once to build a quaternion from an angle, is an
  external math primitive; the two parse functions that need it take the two
  functions (`sinHalf`, `cosHalf`) as explicit parameters.
* `HashMap<u64, _>` is modelled as an association list with the usual
  insert-replaces / remove-erases semantics.
* Bevy `World` is modelled by its component tables for exactly the components
  this bridge spawns, mutates and despawns; `World::get_mut` is modelled by a
  conditional in-place modification that is a no-op when the component is
  absent, matching Bevy, and `World::despawn` of an absent entity is a no-op
  (Bevy logs a warning and returns `false`).  Render-only marker components
  (visibility bundle, `GlobalTransform`) are not read or branched on by any
  bridge operation and are not tracked.
-/

namespace BevyRuby

abbrev Q := ℚ

/-- Embeds `bevy_math::Vec3`, with exact coordinates. -/
structure Vec3Q where
  x : Q
  y : Q
  z : Q
deriving DecidableEq, Repr

/-- Embeds `bevy_math::Quat` (only ever built by `Quat::from_xyzw` here). -/
structure QuatQ where
  x : Q
  y : Q
  z : Q
  w : Q
deriving DecidableEq, Repr

/-- Embeds `bevy_color::Color::srgba` payload. -/
structure ColorQ where
  r : Q
  g : Q
  b : Q
  a : Q
deriving DecidableEq, Repr

/-- Embeds `Color::srgba(r, g, b, a)`. -/
def Color.srgba (r g b a : Q) : ColorQ := ⟨r, g, b, a⟩

/-- Embeds `bevy_transform::components::Transform`. -/
structure TransformQ where
  translation : Vec3Q
  rotation : QuatQ
  scale : Vec3Q
deriving DecidableEq, Repr

/-- Embeds `SpriteData` (sprite_renderer.rs). -/
structure SpriteData where
  color_r : Q
  color_g : Q
  color_b : Q
  color_a : Q
  flip_x : Bool
  flip_y : Bool
  anchor_x : Q
  anchor_y : Q
  has_custom_size : Bool
  custom_size_x : Q
  custom_size_y : Q
deriving DecidableEq, Repr

/-- Embeds `impl Default for SpriteData`. -/
def SpriteData.default : SpriteData :=
  { color_r := 1, color_g := 1, color_b := 1, color_a := 1
    flip_x := false, flip_y := false
    anchor_x := 1/2, anchor_y := 1/2
    has_custom_size := false, custom_size_x := 0, custom_size_y := 0 }

/-- Embeds `TransformData` (sprite_renderer.rs). -/
structure TransformData where
  translation_x : Q
  translation_y : Q
  translation_z : Q
  rotation_x : Q
  rotation_y : Q
  rotation_z : Q
  rotation_w : Q
  scale_x : Q
  scale_y : Q
  scale_z : Q
deriving DecidableEq, Repr

/-- Embeds `impl Default for TransformData`. -/
def TransformData.default : TransformData :=
  { translation_x := 0, translation_y := 0, translation_z := 0
    rotation_x := 0, rotation_y := 0, rotation_z := 0, rotation_w := 1
    scale_x := 1, scale_y := 1, scale_z := 1 }

/-- Embeds `TextData` (text_renderer.rs). -/
structure TextData where
  content : String
  font_size : Q
  color_r : Q
  color_g : Q
  color_b : Q
  color_a : Q
deriving DecidableEq, Repr

/-- Embeds `impl Default for TextData`. -/
def TextData.default : TextData :=
  { content := "", font_size := 24, color_r := 1, color_g := 1, color_b := 1, color_a := 1 }

/-- Embeds `TextTransformData` (text_renderer.rs). -/
structure TextTransformData where
  translation_x : Q
  translation_y : Q
  translation_z : Q
  scale_x : Q
  scale_y : Q
  scale_z : Q
deriving DecidableEq, Repr

/-- Embeds `impl Default for TextTransformData`. -/
def TextTransformData.default : TextTransformData :=
  { translation_x := 0, translation_y := 0, translation_z := 0
    scale_x := 1, scale_y := 1, scale_z := 1 }

/-- Embeds `ShapeType` (mesh_renderer.rs). -/
inductive ShapeType where
  | rectangle
  | circle
  | regularPolygon
  | line
  | ellipse
deriving DecidableEq, Repr

/-- Embeds `MeshData` (mesh_renderer.rs). -/
structure MeshData where
  shape_type : ShapeType
  color_r : Q
  color_g : Q
  color_b : Q
  color_a : Q
  width : Q
  height : Q
  radius : Q
  sides : Nat
  line_start_x : Q
  line_start_y : Q
  line_end_x : Q
  line_end_y : Q
  thickness : Q
  fill : Bool
deriving DecidableEq, Repr

/-- Embeds `impl Default for MeshData`. -/
def MeshData.default : MeshData :=
  { shape_type := .rectangle
    color_r := 1, color_g := 1, color_b := 1, color_a := 1
    width := 100, height := 100, radius := 50, sides := 6
    line_start_x := 0, line_start_y := 0, line_end_x := 100, line_end_y := 0
    thickness := 2, fill := true }

/-- Embeds `MeshTransformData` (mesh_renderer.rs). -/
structure MeshTransformData where
  translation_x : Q
  translation_y : Q
  translation_z : Q
  rotation_x : Q
  rotation_y : Q
  rotation_z : Q
  rotation_w : Q
  scale_x : Q
  scale_y : Q
  scale_z : Q
deriving DecidableEq, Repr

/-- Embeds `impl Default for MeshTransformData`. -/
def MeshTransformData.default : MeshTransformData :=
  { translation_x := 0, translation_y := 0, translation_z := 0
    rotation_x := 0, rotation_y := 0, rotation_z := 0, rotation_w := 1
    scale_x := 1, scale_y := 1, scale_z := 1 }

/-- Embeds `SpriteOperation` (sprite_renderer.rs). -/
inductive SpriteOperation where
  | sync (ruby_entity_id : Nat) (sprite_data : SpriteData) (transform_data : TransformData)
  | remove (ruby_entity_id : Nat)
  | clear
deriving DecidableEq, Repr

/-- Embeds `TextOperation` (text_renderer.rs). -/
inductive TextOperation where
  | sync (ruby_entity_id : Nat) (text_data : TextData) (transform_data : TextTransformData)
  | remove (ruby_entity_id : Nat)
  | clear
deriving DecidableEq, Repr

/-- Embeds `MeshOperation` (mesh_renderer.rs). -/
inductive MeshOperation where
  | sync (ruby_entity_id : Nat) (mesh_data : MeshData) (transform_data : MeshTransformData)
  | remove (ruby_entity_id : Nat)
  | clear
deriving DecidableEq, Repr

/-! ## Association-list maps

`HashMap<u64, V>` modelled as an association list with unique keys:
`kvInsert` replaces the entry if the key is present (as `HashMap::insert`),
`kvErase` removes it (as `HashMap::remove`), `kvModify` is the
`if let Some(mut c) = world.get_mut(e)` pattern: modify in place when the
key is present, do nothing otherwise. -/

/-- Lookup in an association list (`HashMap::get`). -/
def kvLookup {α : Type} (k : Nat) : List (Nat × α) → Option α
  | [] => none
  | (k2, v) :: rest => if k2 = k then some v else kvLookup k rest

/-- Insert-or-replace (`HashMap::insert`). -/
def kvInsert {α : Type} (k : Nat) (v : α) : List (Nat × α) → List (Nat × α)
  | [] => [(k, v)]
  | (k2, w) :: rest => if k2 = k then (k, v) :: rest else (k2, w) :: kvInsert k v rest

/-- Remove a key (`HashMap::remove`). -/
def kvErase {α : Type} (k : Nat) : List (Nat × α) → List (Nat × α)
  | [] => []
  | (k2, w) :: rest => if k2 = k then kvErase k rest else (k2, w) :: kvErase k rest

/-- Modify in place when present; no-op when absent (`World::get_mut` pattern). -/
def kvModify {α : Type} (k : Nat) (f : α → α) : List (Nat × α) → List (Nat × α)
  | [] => []
  | (k2, v) :: rest => if k2 = k then (k2, f v) :: rest else (k2, v) :: kvModify k f rest

/-! ## The Bevy world, restricted to the components this bridge touches -/

/-- The fields of `bevy_sprite::Sprite` that the bridge writes. -/
structure SpriteComp where
  color : ColorQ
  custom_size : Option (Q × Q)
  flip_x : Bool
  flip_y : Bool
  image : Nat
deriving DecidableEq, Repr

/-- Embeds `bevy_prototype_lyon` `Stroke`: color and line width. -/
structure StrokeComp where
  color : ColorQ
  width : Q
deriving DecidableEq, Repr

/-- The shape geometry built by `GeometryBuilder::build_as` per `ShapeType`. -/
inductive ShapeGeom where
  | rectangle (extents : Q × Q)
  | circle (radius : Q)
  | regularPolygon (sides : Nat) (radius : Q)
  | line (start stop : Q × Q)
  | ellipse (radii : Q × Q)
deriving DecidableEq, Repr

/-- Bevy `World`, restricted to the entity allocator, the component tables the
bridge spawns/mutates/despawns, and the `DefaultSpriteTexture` resource. -/
structure World where
  next_entity : Nat
  sprites : List (Nat × SpriteComp)
  transforms : List (Nat × TransformQ)
  texts2d : List (Nat × String)
  text_colors : List (Nat × ColorQ)
  text_fonts : List (Nat × Q)
  fills : List (Nat × ColorQ)
  strokes : List (Nat × StrokeComp)
  shape_paths : List (Nat × ShapeGeom)
  default_sprite_texture : Option Nat
deriving DecidableEq, Repr

/-- A fresh world with no bridge-spawned entities. -/
def World.empty : World :=
  { next_entity := 0, sprites := [], transforms := [], texts2d := []
    text_colors := [], text_fonts := [], fills := [], strokes := []
    shape_paths := [], default_sprite_texture := none }

/-- Does any component table hold entity `e`?  (Used to state properties about
desynchronized states in which a recorded handle is dead in the store.) -/
def World.contains (w : World) (e : Nat) : Bool :=
  (kvLookup e w.sprites).isSome || (kvLookup e w.transforms).isSome ||
  (kvLookup e w.texts2d).isSome || (kvLookup e w.text_colors).isSome ||
  (kvLookup e w.text_fonts).isSome || (kvLookup e w.fills).isSome ||
  (kvLookup e w.strokes).isSome || (kvLookup e w.shape_paths).isSome

/-- Embeds `World::despawn`: remove the entity from every component table; a no-op on
an entity that no table holds (Bevy warns and returns `false`). -/
def World.despawn (w : World) (e : Nat) : World :=
  { w with
    sprites := kvErase e w.sprites
    transforms := kvErase e w.transforms
    texts2d := kvErase e w.texts2d
    text_colors := kvErase e w.text_colors
    text_fonts := kvErase e w.text_fonts
    fills := kvErase e w.fills
    strokes := kvErase e w.strokes
    shape_paths := kvErase e w.shape_paths }

/-- The `Transform` value built by `sync_sprite` / mesh `apply_pending` from a
ten-field transform payload. -/
def transformOfData (td : TransformData) : TransformQ :=
  { translation := ⟨td.translation_x, td.translation_y, td.translation_z⟩
    rotation := ⟨td.rotation_x, td.rotation_y, td.rotation_z, td.rotation_w⟩
    scale := ⟨td.scale_x, td.scale_y, td.scale_z⟩ }

/-- The `Transform` value built by mesh `apply_pending`. -/
def transformOfMeshData (td : MeshTransformData) : TransformQ :=
  { translation := ⟨td.translation_x, td.translation_y, td.translation_z⟩
    rotation := ⟨td.rotation_x, td.rotation_y, td.rotation_z, td.rotation_w⟩
    scale := ⟨td.scale_x, td.scale_y, td.scale_z⟩ }

/-- The `Transform` value built by `sync_text` (rotation is `Quat::IDENTITY`). -/
def transformOfTextData (td : TextTransformData) : TransformQ :=
  { translation := ⟨td.translation_x, td.translation_y, td.translation_z⟩
    rotation := ⟨0, 0, 0, 1⟩
    scale := ⟨td.scale_x, td.scale_y, td.scale_z⟩ }

/-! ## SpriteSync (sprite_renderer.rs) -/

/-- Embeds `SpriteSync`: id ↦ Bevy entity map plus the pending-operation queue.
(`EntityData` is a one-field wrapper around the Bevy `Entity`.) -/
structure SpriteSync where
  entity_map : List (Nat × Nat)
  pending_operations : List SpriteOperation
deriving DecidableEq, Repr

/-- Embeds `SpriteSync::new`. -/
def SpriteSync.new : SpriteSync := { entity_map := [], pending_operations := [] }

/-- Embeds `SpriteSync::sync_sprite_standalone`: queue an upsert, do not touch the world. -/
def SpriteSync.sync_sprite_standalone (s : SpriteSync) (ruby_entity_id : Nat)
    (sprite_data : SpriteData) (transform_data : TransformData) : SpriteSync :=
  { s with pending_operations :=
      s.pending_operations ++ [SpriteOperation.sync ruby_entity_id sprite_data transform_data] }

/-- Embeds `SpriteSync::remove_sprite_standalone`. -/
def SpriteSync.remove_sprite_standalone (s : SpriteSync) (ruby_entity_id : Nat) : SpriteSync :=
  { s with pending_operations := s.pending_operations ++ [SpriteOperation.remove ruby_entity_id] }

/-- Embeds `SpriteSync::clear_standalone`. -/
def SpriteSync.clear_standalone (s : SpriteSync) : SpriteSync :=
  { s with pending_operations := s.pending_operations ++ [SpriteOperation.clear] }

/-- Embeds `SpriteSync::sync_sprite` (the `rendering` build): update in place when the
id has a recorded Bevy entity, otherwise spawn a new sprite entity and record
the mapping. -/
def SpriteSync.sync_sprite (s : SpriteSync) (w : World) (ruby_entity_id : Nat)
    (sprite_data : SpriteData) (transform_data : TransformData) : SpriteSync × World :=
  let color := Color.srgba sprite_data.color_r sprite_data.color_g
    sprite_data.color_b sprite_data.color_a
  let custom_size : Option (Q × Q) :=
    if sprite_data.has_custom_size then
      some (sprite_data.custom_size_x, sprite_data.custom_size_y)
    else none
  let transform := transformOfData transform_data
  match kvLookup ruby_entity_id s.entity_map with
  | some bevy_entity =>
      let updateSprite := fun (sprite : SpriteComp) =>
        { sprite with
          color := color
          custom_size := custom_size
          flip_x := sprite_data.flip_x
          flip_y := sprite_data.flip_y }
      let sprites2 := kvModify bevy_entity updateSprite w.sprites
      let transforms2 := kvModify bevy_entity (fun _ => transform) w.transforms
      (s, { w with sprites := sprites2, transforms := transforms2 })
  | none =>
      let texture_handle := w.default_sprite_texture
      let bevy_entity := w.next_entity
      let spawned : SpriteComp :=
        { color := color
          custom_size := custom_size
          flip_x := sprite_data.flip_x
          flip_y := sprite_data.flip_y
          image := texture_handle.getD 0 }
      let w2 :=
        { w with
          next_entity := w.next_entity + 1
          sprites := w.sprites ++ [(bevy_entity, spawned)]
          transforms := w.transforms ++ [(bevy_entity, transform)] }
      ({ s with entity_map := kvInsert ruby_entity_id bevy_entity s.entity_map }, w2)

/-- Embeds `SpriteSync::remove_sprite`: despawn and erase the mapping when recorded,
no-op otherwise. -/
def SpriteSync.remove_sprite (s : SpriteSync) (w : World) (ruby_entity_id : Nat) :
    SpriteSync × World :=
  match kvLookup ruby_entity_id s.entity_map with
  | some bevy_entity =>
      ({ s with entity_map := kvErase ruby_entity_id s.entity_map }, w.despawn bevy_entity)
  | none => (s, w)

/-- Embeds `SpriteSync::clear`: despawn every recorded entity and drop the whole map. -/
def SpriteSync.clear (s : SpriteSync) (w : World) : SpriteSync × World :=
  ({ s with entity_map := [] },
   s.entity_map.foldl (fun acc entry => acc.despawn entry.2) w)

/-- The loop body of `SpriteSync::apply_pending`: dispatch one drained operation. -/
def applySpriteOperation (sw : SpriteSync × World) : SpriteOperation → SpriteSync × World
  | .sync id sd td => sw.1.sync_sprite sw.2 id sd td
  | .remove id => sw.1.remove_sprite sw.2 id
  | .clear => sw.1.clear sw.2

/-- Embeds `SpriteSync::apply_pending`: drain the queue, then apply each drained
operation in order. -/
def SpriteSync.apply_pending (s : SpriteSync) (w : World) : SpriteSync × World :=
  let ops := s.pending_operations
  let s0 : SpriteSync := { s with pending_operations := [] }
  ops.foldl applySpriteOperation (s0, w)

/-- Embeds `SpriteSync::len`. -/
def SpriteSync.len (s : SpriteSync) : Nat := s.entity_map.length

/-- Embeds `SpriteSync::is_empty`. -/
def SpriteSync.is_empty (s : SpriteSync) : Bool := s.entity_map.isEmpty

/-- Embeds `SpriteSync::synced_entities`: the recorded Ruby ids. -/
def SpriteSync.synced_entities (s : SpriteSync) : List Nat := s.entity_map.map Prod.fst

/-! ## TextSync (text_renderer.rs) -/

/-- Embeds `TextSync`: id ↦ Bevy entity map plus the pending-operation queue. -/
structure TextSync where
  entity_map : List (Nat × Nat)
  pending_operations : List TextOperation
deriving DecidableEq, Repr

/-- Embeds `TextSync::new`. -/
def TextSync.new : TextSync := { entity_map := [], pending_operations := [] }

/-- Embeds `TextSync::sync_text_standalone`. -/
def TextSync.sync_text_standalone (s : TextSync) (ruby_entity_id : Nat)
    (text_data : TextData) (transform_data : TextTransformData) : TextSync :=
  { s with pending_operations :=
      s.pending_operations ++ [TextOperation.sync ruby_entity_id text_data transform_data] }

/-- Embeds `TextSync::remove_text_standalone`. -/
def TextSync.remove_text_standalone (s : TextSync) (ruby_entity_id : Nat) : TextSync :=
  { s with pending_operations := s.pending_operations ++ [TextOperation.remove ruby_entity_id] }

/-- Embeds `TextSync::clear_standalone`. -/
def TextSync.clear_standalone (s : TextSync) : TextSync :=
  { s with pending_operations := s.pending_operations ++ [TextOperation.clear] }

/-- Embeds `TextSync::sync_text`: update `Text2d`, `TextColor`, `TextFont` and
`Transform` in place when recorded, otherwise spawn a new text entity. -/
def TextSync.sync_text (s : TextSync) (w : World) (ruby_entity_id : Nat)
    (text_data : TextData) (transform_data : TextTransformData) : TextSync × World :=
  let color := Color.srgba text_data.color_r text_data.color_g
    text_data.color_b text_data.color_a
  let transform := transformOfTextData transform_data
  match kvLookup ruby_entity_id s.entity_map with
  | some bevy_entity =>
      let texts2 := kvModify bevy_entity (fun _ => text_data.content) w.texts2d
      let colors2 := kvModify bevy_entity (fun _ => color) w.text_colors
      let fonts2 := kvModify bevy_entity (fun _ => text_data.font_size) w.text_fonts
      let transforms2 := kvModify bevy_entity (fun _ => transform) w.transforms
      (s, { w with texts2d := texts2, text_colors := colors2
                   text_fonts := fonts2, transforms := transforms2 })
  | none =>
      let bevy_entity := w.next_entity
      let w2 :=
        { w with
          next_entity := w.next_entity + 1
          texts2d := w.texts2d ++ [(bevy_entity, text_data.content)]
          text_fonts := w.text_fonts ++ [(bevy_entity, text_data.font_size)]
          text_colors := w.text_colors ++ [(bevy_entity, color)]
          transforms := w.transforms ++ [(bevy_entity, transform)] }
      ({ s with entity_map := kvInsert ruby_entity_id bevy_entity s.entity_map }, w2)

/-- Embeds `TextSync::remove_text`. -/
def TextSync.remove_text (s : TextSync) (w : World) (ruby_entity_id : Nat) :
    TextSync × World :=
  match kvLookup ruby_entity_id s.entity_map with
  | some bevy_entity =>
      ({ s with entity_map := kvErase ruby_entity_id s.entity_map }, w.despawn bevy_entity)
  | none => (s, w)

/-- Embeds `TextSync::clear`. -/
def TextSync.clear (s : TextSync) (w : World) : TextSync × World :=
  ({ s with entity_map := [] },
   s.entity_map.foldl (fun acc entry => acc.despawn entry.2) w)

/-- The loop body of `TextSync::apply_pending`. -/
def applyTextOperation (sw : TextSync × World) : TextOperation → TextSync × World
  | .sync id dd td => sw.1.sync_text sw.2 id dd td
  | .remove id => sw.1.remove_text sw.2 id
  | .clear => sw.1.clear sw.2

/-- Embeds `TextSync::apply_pending`: drain the queue, then apply each drained
operation in order. -/
def TextSync.apply_pending (s : TextSync) (w : World) : TextSync × World :=
  let ops := s.pending_operations
  let s0 : TextSync := { s with pending_operations := [] }
  ops.foldl applyTextOperation (s0, w)

/-- Embeds `TextSync::len`. -/
def TextSync.len (s : TextSync) : Nat := s.entity_map.length

/-- Embeds `TextSync::is_empty`. -/
def TextSync.is_empty (s : TextSync) : Bool := s.entity_map.isEmpty

/-! ## MeshSync (mesh_renderer.rs) -/

/-- Embeds `MeshSync`: id ↦ Bevy entity map plus the pending-operation queue. -/
structure MeshSync where
  entity_map : List (Nat × Nat)
  pending_operations : List MeshOperation
deriving DecidableEq, Repr

/-- Embeds `MeshSync::new`. -/
def MeshSync.new : MeshSync := { entity_map := [], pending_operations := [] }

/-- Embeds `MeshSync::sync_mesh_standalone`. -/
def MeshSync.sync_mesh_standalone (s : MeshSync) (ruby_entity_id : Nat)
    (mesh_data : MeshData) (transform_data : MeshTransformData) : MeshSync :=
  { s with pending_operations :=
      s.pending_operations ++ [MeshOperation.sync ruby_entity_id mesh_data transform_data] }

/-- Embeds `MeshSync::remove_mesh_standalone`. -/
def MeshSync.remove_mesh_standalone (s : MeshSync) (ruby_entity_id : Nat) : MeshSync :=
  { s with pending_operations := s.pending_operations ++ [MeshOperation.remove ruby_entity_id] }

/-- Embeds `MeshSync::clear_standalone`. -/
def MeshSync.clear_standalone (s : MeshSync) : MeshSync :=
  { s with pending_operations := s.pending_operations ++ [MeshOperation.clear] }

/-- The geometry built by `GeometryBuilder::build_as` for one `MeshData`. -/
def meshGeometry (md : MeshData) : ShapeGeom :=
  match md.shape_type with
  | .rectangle => .rectangle (md.width, md.height)
  | .circle => .circle md.radius
  | .regularPolygon => .regularPolygon md.sides md.radius
  | .line => .line (md.line_start_x, md.line_start_y) (md.line_end_x, md.line_end_y)
  | .ellipse => .ellipse (md.width / 2, md.height / 2)

/-- The `Sync` arm of `MeshSync::apply_pending`: update `Transform`, `Fill`
and `Stroke` in place when recorded, otherwise spawn the shape entity. -/
def MeshSync.sync_mesh (s : MeshSync) (w : World) (ruby_entity_id : Nat)
    (mesh_data : MeshData) (transform_data : MeshTransformData) : MeshSync × World :=
  let color := Color.srgba mesh_data.color_r mesh_data.color_g
    mesh_data.color_b mesh_data.color_a
  let transform := transformOfMeshData transform_data
  match kvLookup ruby_entity_id s.entity_map with
  | some bevy_entity =>
      let transforms2 := kvModify bevy_entity (fun _ => transform) w.transforms
      let fills2 := kvModify bevy_entity (fun _ => color) w.fills
      let strokes2 := kvModify bevy_entity (fun stroke => { stroke with color := color }) w.strokes
      (s, { w with transforms := transforms2, fills := fills2, strokes := strokes2 })
  | none =>
      let transparent := Color.srgba 0 0 0 0
      let fill_color := if mesh_data.fill then color else transparent
      let stroke : StrokeComp := { color := color, width := mesh_data.thickness }
      let bevy_entity := w.next_entity
      let geometry := meshGeometry mesh_data
      let w2 :=
        match mesh_data.shape_type with
        | .line =>
            { w with
              next_entity := w.next_entity + 1
              shape_paths := w.shape_paths ++ [(bevy_entity, geometry)]
              transforms := w.transforms ++ [(bevy_entity, transform)]
              strokes := w.strokes ++ [(bevy_entity, stroke)] }
        | _ =>
            { w with
              next_entity := w.next_entity + 1
              shape_paths := w.shape_paths ++ [(bevy_entity, geometry)]
              transforms := w.transforms ++ [(bevy_entity, transform)]
              fills := w.fills ++ [(bevy_entity, fill_color)]
              strokes := w.strokes ++ [(bevy_entity, stroke)] }
      ({ s with entity_map := kvInsert ruby_entity_id bevy_entity s.entity_map }, w2)

/-- The `Remove` arm of `MeshSync::apply_pending`. -/
def MeshSync.remove_mesh (s : MeshSync) (w : World) (ruby_entity_id : Nat) :
    MeshSync × World :=
  match kvLookup ruby_entity_id s.entity_map with
  | some bevy_entity =>
      ({ s with entity_map := kvErase ruby_entity_id s.entity_map }, w.despawn bevy_entity)
  | none => (s, w)

/-- The `Clear` arm of `MeshSync::apply_pending`. -/
def MeshSync.clear (s : MeshSync) (w : World) : MeshSync × World :=
  ({ s with entity_map := [] },
   s.entity_map.foldl (fun acc entry => acc.despawn entry.2) w)

/-- The loop body of `MeshSync::apply_pending`. -/
def applyMeshOperation (sw : MeshSync × World) : MeshOperation → MeshSync × World
  | .sync id md td => sw.1.sync_mesh sw.2 id md td
  | .remove id => sw.1.remove_mesh sw.2 id
  | .clear => sw.1.clear sw.2

/-- Embeds `MeshSync::apply_pending`: drain the queue, then apply each drained
operation in order. -/
def MeshSync.apply_pending (s : MeshSync) (w : World) : MeshSync × World :=
  let ops := s.pending_operations
  let s0 : MeshSync := { s with pending_operations := [] }
  ops.foldl applyMeshOperation (s0, w)

/-- Embeds `MeshSync::len`. -/
def MeshSync.len (s : MeshSync) : Nat := s.entity_map.length

/-- Embeds `MeshSync::is_empty`. -/
def MeshSync.is_empty (s : MeshSync) : Bool := s.entity_map.isEmpty

/-- Embeds `MeshSync::synced_entities`. -/
def MeshSync.synced_entities (s : MeshSync) : List Nat := s.entity_map.map Prod.fst

/-! ## InputState (input_bridge.rs)

Key/button sets are modelled as lists of names (insertion order; the claims
never depend on set deduplication).  The strings are the Ruby-facing names
produced by the keycode/button conversion tables. -/

/-- Embeds `GamepadInputState` (input_bridge.rs). -/
structure GamepadInputState where
  id : Nat
  name : String
  buttons_pressed : List String
  buttons_just_pressed : List String
  buttons_just_released : List String
  axes : List (String × Q)
deriving DecidableEq, Repr

/-- Embeds `GamepadInputState::default()` with a given id (the `or_insert_with` value). -/
def GamepadInputState.fresh (id : Nat) : GamepadInputState :=
  { id := id, name := "", buttons_pressed := [], buttons_just_pressed := []
    buttons_just_released := [], axes := [] }

/-- Embeds `InputState` (input_bridge.rs). -/
structure InputState where
  keys_pressed : List String
  keys_just_pressed : List String
  keys_just_released : List String
  mouse_buttons_pressed : List String
  mouse_buttons_just_pressed : List String
  mouse_position : Q × Q
  mouse_delta : Q × Q
  gamepads : List (Nat × GamepadInputState)
deriving DecidableEq, Repr

/-- Embeds `InputState::new` (= `Default`): empty sets, zero position and delta. -/
def InputState.new : InputState :=
  { keys_pressed := [], keys_just_pressed := [], keys_just_released := []
    mouse_buttons_pressed := [], mouse_buttons_just_pressed := []
    mouse_position := (0, 0), mouse_delta := (0, 0), gamepads := [] }

/-- Embeds `InputState::clear`: clears the key/button sets and the gamepad map; the
mouse position and delta are left as they are. -/
def InputState.clear (s : InputState) : InputState :=
  { s with keys_pressed := [], keys_just_pressed := [], keys_just_released := []
           mouse_buttons_pressed := [], mouse_buttons_just_pressed := []
           gamepads := [] }

/-- Embeds `InputState::set_pressed`. -/
def InputState.set_pressed (s : InputState) (key : String) : InputState :=
  { s with keys_pressed := s.keys_pressed ++ [key] }

/-- Embeds `InputState::set_just_pressed`. -/
def InputState.set_just_pressed (s : InputState) (key : String) : InputState :=
  { s with keys_just_pressed := s.keys_just_pressed ++ [key] }

/-- Embeds `InputState::set_just_released`. -/
def InputState.set_just_released (s : InputState) (key : String) : InputState :=
  { s with keys_just_released := s.keys_just_released ++ [key] }

/-- Embeds `InputState::set_mouse_pressed`. -/
def InputState.set_mouse_pressed (s : InputState) (button : String) : InputState :=
  { s with mouse_buttons_pressed := s.mouse_buttons_pressed ++ [button] }

/-- Embeds `InputState::set_mouse_just_pressed`. -/
def InputState.set_mouse_just_pressed (s : InputState) (button : String) : InputState :=
  { s with mouse_buttons_just_pressed := s.mouse_buttons_just_pressed ++ [button] }

/-- The `entry(id).or_insert_with(default)` pattern shared by the gamepad
setters: apply `f` to the existing slot, or to a fresh one. -/
def InputState.modifyGamepad (s : InputState) (id : Nat)
    (f : GamepadInputState → GamepadInputState) : InputState :=
  match kvLookup id s.gamepads with
  | some g => { s with gamepads := kvInsert id (f g) s.gamepads }
  | none => { s with gamepads := s.gamepads ++ [(id, f (GamepadInputState.fresh id))] }

/-- Embeds `InputState::set_gamepad_connected`. -/
def InputState.set_gamepad_connected (s : InputState) (id : Nat) (name : String) : InputState :=
  s.modifyGamepad id (fun g => { g with name := name })

/-- Embeds `InputState::set_gamepad_button_pressed`. -/
def InputState.set_gamepad_button_pressed (s : InputState) (id : Nat) (button : String) :
    InputState :=
  s.modifyGamepad id (fun g => { g with buttons_pressed := g.buttons_pressed ++ [button] })

/-- Embeds `InputState::set_gamepad_button_just_pressed`. -/
def InputState.set_gamepad_button_just_pressed (s : InputState) (id : Nat) (button : String) :
    InputState :=
  s.modifyGamepad id
    (fun g => { g with buttons_just_pressed := g.buttons_just_pressed ++ [button] })

/-- Embeds `InputState::set_gamepad_button_just_released`. -/
def InputState.set_gamepad_button_just_released (s : InputState) (id : Nat) (button : String) :
    InputState :=
  s.modifyGamepad id
    (fun g => { g with buttons_just_released := g.buttons_just_released ++ [button] })

/-- Embeds `InputState::set_gamepad_axis`. -/
def InputState.set_gamepad_axis (s : InputState) (id : Nat) (axis : String) (value : Q) :
    InputState :=
  s.modifyGamepad id (fun g => { g with axes := g.axes ++ [(axis, value)] })

/-- Embeds `InputState::update_cursor_position`: when the primary window reports a
cursor position, store it and compute the delta against the previously stored
position; otherwise leave both fields untouched. -/
def InputState.update_cursor_position (s : InputState) (cursor : Option (Q × Q)) : InputState :=
  match cursor with
  | some pos =>
      let old_pos := s.mouse_position
      { s with mouse_position := pos
               mouse_delta := (pos.1 - old_pos.1, pos.2 - old_pos.2) }
  | none => s

/-- Embeds `InputState::key_pressed`. -/
def InputState.key_pressed (s : InputState) (key : String) : Bool :=
  s.keys_pressed.contains key

/-! ## Bridge state (render_app.rs) -/

/-- Embeds `GamepadRumbleCommand` (render_app.rs). -/
structure GamepadRumbleCommand where
  gamepad_id : Nat
  strong_motor : Q
  weak_motor : Q
  duration_secs : Q
  stop : Bool
deriving DecidableEq, Repr

/-- The `bevy_input::GamepadRumbleRequest` event sent by the rumble drain. -/
inductive GamepadRumbleRequest where
  | stop (gamepad : Nat)
  | add (gamepad : Nat) (strong_motor weak_motor duration : Q)
deriving DecidableEq, Repr

/-- The translation `ruby_bridge_system` applies to each drained rumble
command: a `Stop` for the stop flag or non-positive motors, otherwise an `Add`
with intensities clamped to `[0, 1]` and duration clamped to non-negative. -/
def GamepadRumbleCommand.toRequest (c : GamepadRumbleCommand) : GamepadRumbleRequest :=
  if c.stop ∨ (c.strong_motor ≤ 0 ∧ c.weak_motor ≤ 0) then
    .stop c.gamepad_id
  else
    .add c.gamepad_id (max 0 (min 1 c.strong_motor)) (max 0 (min 1 c.weak_motor))
      (max 0 c.duration_secs)

/-- Embeds `PickingEventData` (render_app.rs). -/
structure PickingEventData where
  kind : String
  target_id : Nat
  pointer_id : String
  pointer_position : Q × Q
  button : Option String
  camera_id : Option Nat
  depth : Option Q
  hit_position : Option (Q × Q × Q)
  hit_normal : Option (Q × Q × Q)
deriving DecidableEq, Repr

/-- Embeds `RubyBridgeState` (render_app.rs): everything behind the one mutex shared
between the Bevy systems and the Ruby callback.  (`world_access` is a raw
pointer used by unrelated code paths and carries no bridge state.) -/
structure RubyBridgeState where
  input_state : InputState
  sprite_sync : SpriteSync
  text_sync : TextSync
  mesh_sync : MeshSync
  pending_gamepad_rumble : List GamepadRumbleCommand
  picking_events : List PickingEventData
  should_exit : Bool
  camera_position : Q × Q × Q
  camera_scale : Q
  camera_dirty : Bool
deriving DecidableEq, Repr

/-- Embeds `impl Default for RubyBridgeState`. -/
def RubyBridgeState.default : RubyBridgeState :=
  { input_state := InputState.new
    sprite_sync := SpriteSync.new
    text_sync := TextSync.new
    mesh_sync := MeshSync.new
    pending_gamepad_rumble := []
    picking_events := []
    should_exit := false
    camera_position := (0, 0, 0)
    camera_scale := 1
    camera_dirty := false }

/-! ## Ruby-side staging state (ruby_render_app.rs thread-locals)

One value per calling thread, gathering the `thread_local!` cells
`SHARED_INPUT`, `SHOULD_STOP`, `PENDING_SPRITES`, `PENDING_TEXTS`,
`PENDING_MESHES`, `CAMERA_POSITION`, `CAMERA_SCALE`, `CAMERA_DIRTY`,
`PENDING_GAMEPAD_RUMBLE` and `SHARED_PICKING_EVENTS`. -/

structure ScriptLocal where
  shared_input : InputState
  should_stop : Bool
  pending_sprites : SpriteSync
  pending_texts : TextSync
  pending_meshes : MeshSync
  camera_position : Q × Q × Q
  camera_scale : Q
  camera_dirty : Bool
  pending_gamepad_rumble : List GamepadRumbleCommand
  shared_picking_events : List PickingEventData
deriving DecidableEq, Repr

/-- The `thread_local!` initializers. -/
def ScriptLocal.init : ScriptLocal :=
  { shared_input := InputState.new
    should_stop := false
    pending_sprites := SpriteSync.new
    pending_texts := TextSync.new
    pending_meshes := MeshSync.new
    camera_position := (0, 0, 0)
    camera_scale := 1
    camera_dirty := false
    pending_gamepad_rumble := []
    shared_picking_events := [] }

/-- Embeds `RubyRenderApp::stop`: set `SHOULD_STOP`. -/
def RubyRenderApp.stop (sc : ScriptLocal) : ScriptLocal :=
  { sc with should_stop := true }

/-- Embeds `RubyRenderApp::set_camera_position`: overwrite the latched position and
mark the latch dirty. -/
def RubyRenderApp.set_camera_position (sc : ScriptLocal) (p : Q × Q × Q) : ScriptLocal :=
  { sc with camera_position := p, camera_dirty := true }

/-- Embeds `RubyRenderApp::set_camera_scale`. -/
def RubyRenderApp.set_camera_scale (sc : ScriptLocal) (scale : Q) : ScriptLocal :=
  { sc with camera_scale := scale, camera_dirty := true }

/-- Embeds `RubyRenderApp::queue_gamepad_rumble`: build the command (deriving the
stop flag from non-positive motors) and push it. -/
def RubyRenderApp.queue_gamepad_rumble (sc : ScriptLocal) (gamepad_id : Nat)
    (strong_motor weak_motor duration_secs : Q) : ScriptLocal :=
  let stopFlag : Bool := decide (strong_motor ≤ 0 ∧ weak_motor ≤ 0)
  let command : GamepadRumbleCommand :=
    { gamepad_id := gamepad_id, strong_motor := strong_motor, weak_motor := weak_motor
      duration_secs := duration_secs, stop := stopFlag }
  { sc with pending_gamepad_rumble := sc.pending_gamepad_rumble ++ [command] }

/-- Embeds `RubyRenderApp::drain_picking_events`: return the buffered events and
leave the buffer empty (`drain(..)`). -/
def RubyRenderApp.drain_picking_events (sc : ScriptLocal) :
    List PickingEventData × ScriptLocal :=
  (sc.shared_picking_events, { sc with shared_picking_events := [] })

/-! ## Ruby payload hashes and the parse functions (ruby_render_app.rs)

A Ruby hash argument is modelled as an association list from symbol names to
Ruby values.  `get_hash_value` returns `none` for an absent key or a `nil`
value, and otherwise converts, failing with a `TypeError`-style message when
the Ruby value cannot convert to the requested Rust type (magnus
`TryConvert`): `f64` accepts Float and Integer; `i64` accepts Integer;
`String` accepts String; `bool` uses Ruby truthiness and never fails. -/

/-- A Ruby value, as far as the payload parsers can observe it. -/
inductive RVal where
  | int (n : Int)
  | float (q : Q)
  | bool (b : Bool)
  | str (s : String)
  | nil
deriving DecidableEq, Repr

/-- A Ruby hash argument. -/
abbrev RubyHash := List (String × RVal)

/-- Embeds `get_hash_value::<f64>`. -/
def getFloat (h : RubyHash) (key : String) : Except String (Option Q) :=
  match h.lookup key with
  | none => .ok none
  | some .nil => .ok none
  | some (.float q) => .ok (some q)
  | some (.int n) => .ok (some (n : Q))
  | some _ => .error "no implicit conversion into Float"

/-- Embeds `get_hash_value::<i64>`. -/
def getInt (h : RubyHash) (key : String) : Except String (Option Int) :=
  match h.lookup key with
  | none => .ok none
  | some .nil => .ok none
  | some (.int n) => .ok (some n)
  | some _ => .error "no implicit conversion into Integer"

/-- Embeds `get_hash_value::<String>`. -/
def getString (h : RubyHash) (key : String) : Except String (Option String) :=
  match h.lookup key with
  | none => .ok none
  | some .nil => .ok none
  | some (.str s) => .ok (some s)
  | some _ => .error "no implicit conversion into String"

/-- Embeds `get_hash_value::<bool>`: Ruby truthiness, never a conversion error. -/
def getBool (h : RubyHash) (key : String) : Except String (Option Bool) :=
  match h.lookup key with
  | none => .ok none
  | some .nil => .ok none
  | some (.bool b) => .ok (some b)
  | some _ => .ok (some true)

/-- Embeds `parse_sprite_data`. -/
def parse_sprite_data (h : RubyHash) : Except String SpriteData := do
  let color_r ← getFloat h "color_r"
  let color_g ← getFloat h "color_g"
  let color_b ← getFloat h "color_b"
  let color_a ← getFloat h "color_a"
  let flip_x ← getBool h "flip_x"
  let flip_y ← getBool h "flip_y"
  let anchor_x ← getFloat h "anchor_x"
  let anchor_y ← getFloat h "anchor_y"
  let custom_size_x ← getFloat h "custom_size_x"
  let custom_size_y ← getFloat h "custom_size_y"
  let has_custom_size := custom_size_x.isSome || custom_size_y.isSome
  .ok { color_r := color_r.getD 1, color_g := color_g.getD 1
        color_b := color_b.getD 1, color_a := color_a.getD 1
        flip_x := flip_x.getD false, flip_y := flip_y.getD false
        anchor_x := anchor_x.getD (1/2), anchor_y := anchor_y.getD (1/2)
        has_custom_size := has_custom_size
        custom_size_x := custom_size_x.getD 0, custom_size_y := custom_size_y.getD 0 }

/-- Embeds `parse_transform_data`: builds the quaternion from the `rotation` angle via
`sin_cos` of the half angle; `sinHalf`/`cosHalf` stand for `f32::sin`/`cos`. -/
def parse_transform_data (sinHalf cosHalf : Q → Q) (h : RubyHash) :
    Except String TransformData := do
  let x ← getFloat h "x"
  let y ← getFloat h "y"
  let z ← getFloat h "z"
  let rotation ← getFloat h "rotation"
  let scale_x ← getFloat h "scale_x"
  let scale_y ← getFloat h "scale_y"
  let scale_z ← getFloat h "scale_z"
  let angle := rotation.getD 0
  let half_angle := angle / 2
  .ok { translation_x := x.getD 0, translation_y := y.getD 0, translation_z := z.getD 0
        rotation_x := 0, rotation_y := 0
        rotation_z := sinHalf half_angle, rotation_w := cosHalf half_angle
        scale_x := scale_x.getD 1, scale_y := scale_y.getD 1, scale_z := scale_z.getD 1 }

/-- Embeds `parse_text_data`. -/
def parse_text_data (h : RubyHash) : Except String TextData := do
  let content ← getString h "content"
  let font_size ← getFloat h "font_size"
  let color_r ← getFloat h "color_r"
  let color_g ← getFloat h "color_g"
  let color_b ← getFloat h "color_b"
  let color_a ← getFloat h "color_a"
  .ok { content := content.getD "", font_size := font_size.getD 24
        color_r := color_r.getD 1, color_g := color_g.getD 1
        color_b := color_b.getD 1, color_a := color_a.getD 1 }

/-- Embeds `parse_text_transform_data`. -/
def parse_text_transform_data (h : RubyHash) : Except String TextTransformData := do
  let x ← getFloat h "x"
  let y ← getFloat h "y"
  let z ← getFloat h "z"
  let scale_x ← getFloat h "scale_x"
  let scale_y ← getFloat h "scale_y"
  let scale_z ← getFloat h "scale_z"
  .ok { translation_x := x.getD 0, translation_y := y.getD 0, translation_z := z.getD 0
        scale_x := scale_x.getD 1, scale_y := scale_y.getD 1, scale_z := scale_z.getD 1 }

/-- The `match shape_type_val.unwrap_or(0)` arms of `parse_mesh_data`,
including the `_ => ShapeType::Rectangle` fallback for any tag outside
`0..=4`. -/
def shapeTypeOfTag (n : Int) : ShapeType :=
  if n = 0 then .rectangle
  else if n = 1 then .circle
  else if n = 2 then .regularPolygon
  else if n = 3 then .line
  else if n = 4 then .ellipse
  else .rectangle

/-- Embeds `parse_mesh_data`. -/
def parse_mesh_data (h : RubyHash) : Except String MeshData := do
  let shape_type_val ← getInt h "shape_type"
  let shape_type : ShapeType := shapeTypeOfTag (shape_type_val.getD 0)
  let color_r ← getFloat h "color_r"
  let color_g ← getFloat h "color_g"
  let color_b ← getFloat h "color_b"
  let color_a ← getFloat h "color_a"
  let width ← getFloat h "width"
  let height ← getFloat h "height"
  let radius ← getFloat h "radius"
  let sides ← getInt h "sides"
  let line_start_x ← getFloat h "line_start_x"
  let line_start_y ← getFloat h "line_start_y"
  let line_end_x ← getFloat h "line_end_x"
  let line_end_y ← getFloat h "line_end_y"
  let thickness ← getFloat h "thickness"
  let fill ← getBool h "fill"
  .ok { shape_type := shape_type
        color_r := color_r.getD 1, color_g := color_g.getD 1
        color_b := color_b.getD 1, color_a := color_a.getD 1
        width := width.getD 100, height := height.getD 100
        radius := radius.getD 50, sides := (sides.getD 6).toNat
        line_start_x := line_start_x.getD 0, line_start_y := line_start_y.getD 0
        line_end_x := line_end_x.getD 100, line_end_y := line_end_y.getD 0
        thickness := thickness.getD 2, fill := fill.getD true }

/-- Embeds `parse_mesh_transform_data`. -/
def parse_mesh_transform_data (sinHalf cosHalf : Q → Q) (h : RubyHash) :
    Except String MeshTransformData := do
  let x ← getFloat h "x"
  let y ← getFloat h "y"
  let z ← getFloat h "z"
  let rotation ← getFloat h "rotation"
  let scale_x ← getFloat h "scale_x"
  let scale_y ← getFloat h "scale_y"
  let scale_z ← getFloat h "scale_z"
  let angle := rotation.getD 0
  let half_angle := angle / 2
  .ok { translation_x := x.getD 0, translation_y := y.getD 0, translation_z := z.getD 0
        rotation_x := 0, rotation_y := 0
        rotation_z := sinHalf half_angle, rotation_w := cosHalf half_angle
        scale_x := scale_x.getD 1, scale_y := scale_y.getD 1, scale_z := scale_z.getD 1 }

/-- Embeds `RubyRenderApp::sync_sprite`: parse both hashes (failing the call on a
conversion error, staging nothing) and queue the upsert on `PENDING_SPRITES`. -/
def RubyRenderApp.sync_sprite (sinHalf cosHalf : Q → Q) (ruby_entity_id : Nat)
    (sprite_hash transform_hash : RubyHash) (sc : ScriptLocal) :
    Except String ScriptLocal := do
  let sprite_data ← parse_sprite_data sprite_hash
  let transform_data ← parse_transform_data sinHalf cosHalf transform_hash
  .ok { sc with pending_sprites :=
          sc.pending_sprites.sync_sprite_standalone ruby_entity_id sprite_data transform_data }

/-- Embeds `RubyRenderApp::sync_text`. -/
def RubyRenderApp.sync_text (ruby_entity_id : Nat)
    (text_hash transform_hash : RubyHash) (sc : ScriptLocal) :
    Except String ScriptLocal := do
  let text_data ← parse_text_data text_hash
  let transform_data ← parse_text_transform_data transform_hash
  .ok { sc with pending_texts :=
          sc.pending_texts.sync_text_standalone ruby_entity_id text_data transform_data }

/-- Embeds `RubyRenderApp::sync_mesh`. -/
def RubyRenderApp.sync_mesh (sinHalf cosHalf : Q → Q) (ruby_entity_id : Nat)
    (mesh_hash transform_hash : RubyHash) (sc : ScriptLocal) :
    Except String ScriptLocal := do
  let mesh_data ← parse_mesh_data mesh_hash
  let transform_data ← parse_mesh_transform_data sinHalf cosHalf transform_hash
  .ok { sc with pending_meshes :=
          sc.pending_meshes.sync_mesh_standalone ruby_entity_id mesh_data transform_data }

/-- Embeds `RubyRenderApp::remove_sprite`. -/
def RubyRenderApp.remove_sprite (ruby_entity_id : Nat) (sc : ScriptLocal) : ScriptLocal :=
  { sc with pending_sprites := sc.pending_sprites.remove_sprite_standalone ruby_entity_id }

/-- Embeds `RubyRenderApp::clear_sprites`. -/
def RubyRenderApp.clear_sprites (sc : ScriptLocal) : ScriptLocal :=
  { sc with pending_sprites := sc.pending_sprites.clear_standalone }

/-- Embeds `RubyRenderApp::remove_text`. -/
def RubyRenderApp.remove_text (ruby_entity_id : Nat) (sc : ScriptLocal) : ScriptLocal :=
  { sc with pending_texts := sc.pending_texts.remove_text_standalone ruby_entity_id }

/-- Embeds `RubyRenderApp::clear_texts`. -/
def RubyRenderApp.clear_texts (sc : ScriptLocal) : ScriptLocal :=
  { sc with pending_texts := sc.pending_texts.clear_standalone }

/-- Embeds `RubyRenderApp::remove_mesh`. -/
def RubyRenderApp.remove_mesh (ruby_entity_id : Nat) (sc : ScriptLocal) : ScriptLocal :=
  { sc with pending_meshes := sc.pending_meshes.remove_mesh_standalone ruby_entity_id }

/-- Embeds `RubyRenderApp::clear_meshes`. -/
def RubyRenderApp.clear_meshes (sc : ScriptLocal) : ScriptLocal :=
  { sc with pending_meshes := sc.pending_meshes.clear_standalone }

/-! ## The frame protocol (render_app.rs `Update` systems + the run_with_block
callback of ruby_render_app.rs)

The Ruby block is modelled as a list of staging commands: every method the
block can call either reads the shared snapshots or mutates the thread-local
staging state, so its bridge-visible effect is a `ScriptLocal → ScriptLocal`
function built from these commands.  Commands carry already-parsed payloads
(the parse step is `RubyRenderApp.sync_*` above; a call whose parse fails
stages nothing, so it contributes no command). -/

/-- One staging call available to the Ruby block. -/
inductive ScriptCmd where
  | syncSprite (id : Nat) (sd : SpriteData) (td : TransformData)
  | removeSprite (id : Nat)
  | clearSprites
  | syncText (id : Nat) (dd : TextData) (td : TextTransformData)
  | removeText (id : Nat)
  | clearTexts
  | syncMesh (id : Nat) (md : MeshData) (td : MeshTransformData)
  | removeMesh (id : Nat)
  | clearMeshes
  | setCameraPosition (p : Q × Q × Q)
  | setCameraScale (scale : Q)
  | queueRumble (gamepad_id : Nat) (strong weak duration : Q)
  | stop
  | drainPickingEvents
deriving DecidableEq, Repr

/-- Effect of one staging call on the thread-local staging state. -/
def ScriptCmd.run (sc : ScriptLocal) : ScriptCmd → ScriptLocal
  | .syncSprite id sd td =>
      { sc with pending_sprites := sc.pending_sprites.sync_sprite_standalone id sd td }
  | .removeSprite id => RubyRenderApp.remove_sprite id sc
  | .clearSprites => RubyRenderApp.clear_sprites sc
  | .syncText id dd td =>
      { sc with pending_texts := sc.pending_texts.sync_text_standalone id dd td }
  | .removeText id => RubyRenderApp.remove_text id sc
  | .clearTexts => RubyRenderApp.clear_texts sc
  | .syncMesh id md td =>
      { sc with pending_meshes := sc.pending_meshes.sync_mesh_standalone id md td }
  | .removeMesh id => RubyRenderApp.remove_mesh id sc
  | .clearMeshes => RubyRenderApp.clear_meshes sc
  | .setCameraPosition p => RubyRenderApp.set_camera_position sc p
  | .setCameraScale q => RubyRenderApp.set_camera_scale sc q
  | .queueRumble id strong weak dur => RubyRenderApp.queue_gamepad_rumble sc id strong weak dur
  | .stop => RubyRenderApp.stop sc
  | .drainPickingEvents => (RubyRenderApp.drain_picking_events sc).2

/-- Raw per-frame device state polled by `ruby_bridge_system`, after the
keycode/button/axis name conversions (external tables). -/
structure GamepadEnv where
  id : Nat
  name : String
  buttons_pressed : List String
  buttons_just_pressed : List String
  buttons_just_released : List String
  axes : List (String × Q)
deriving DecidableEq, Repr

/-- The device state one frame's `ruby_bridge_system` reads. -/
structure FrameEnv where
  keys_pressed : List String
  keys_just_pressed : List String
  keys_just_released : List String
  mouse_left_pressed : Bool
  mouse_right_pressed : Bool
  mouse_middle_pressed : Bool
  mouse_left_just_pressed : Bool
  mouse_right_just_pressed : Bool
  mouse_middle_just_pressed : Bool
  window_size : Option (Q × Q)
  cursor_position : Option (Q × Q)
  picking_events : List PickingEventData
  gamepads : List GamepadEnv
deriving DecidableEq, Repr

/-- A frame with no devices, no window and no events. -/
def FrameEnv.quiet : FrameEnv :=
  { keys_pressed := [], keys_just_pressed := [], keys_just_released := []
    mouse_left_pressed := false, mouse_right_pressed := false
    mouse_middle_pressed := false
    mouse_left_just_pressed := false, mouse_right_just_pressed := false
    mouse_middle_just_pressed := false
    window_size := none, cursor_position := none
    picking_events := [], gamepads := [] }

/-- The gamepad loop of `ruby_bridge_system` for one gamepad. -/
def captureGamepad (s : InputState) (g : GamepadEnv) : InputState :=
  let s := s.set_gamepad_connected g.id g.name
  let s := g.buttons_pressed.foldl (fun s b => s.set_gamepad_button_pressed g.id b) s
  let s := g.buttons_just_pressed.foldl (fun s b => s.set_gamepad_button_just_pressed g.id b) s
  let s := g.buttons_just_released.foldl
    (fun s b => s.set_gamepad_button_just_released g.id b) s
  g.axes.foldl (fun s ax => s.set_gamepad_axis g.id ax.1 ax.2) s

/-- The input-capture part of `ruby_bridge_system`: clear, refill the key /
mouse-button / gamepad sets, and store the window-centered mouse position when
a cursor position exists. -/
def captureInput (env : FrameEnv) (s : InputState) : InputState :=
  let s := s.clear
  let s := env.keys_pressed.foldl (fun s k => s.set_pressed k) s
  let s := env.keys_just_pressed.foldl (fun s k => s.set_just_pressed k) s
  let s := env.keys_just_released.foldl (fun s k => s.set_just_released k) s
  let s := if env.mouse_left_pressed then s.set_mouse_pressed "LEFT" else s
  let s := if env.mouse_right_pressed then s.set_mouse_pressed "RIGHT" else s
  let s := if env.mouse_middle_pressed then s.set_mouse_pressed "MIDDLE" else s
  let s := if env.mouse_left_just_pressed then s.set_mouse_just_pressed "LEFT" else s
  let s := if env.mouse_right_just_pressed then s.set_mouse_just_pressed "RIGHT" else s
  let s := if env.mouse_middle_just_pressed then s.set_mouse_just_pressed "MIDDLE" else s
  let s := env.gamepads.foldl captureGamepad s
  match env.window_size, env.cursor_position with
  | some (width, height), some pos =>
      { s with mouse_position := (pos.1 - width / 2, height / 2 - pos.2) }
  | _, _ => s

/-- The copy at the head of the `set_callback` closure: publish the freshly
captured input snapshot and picking events to the Ruby-side cells. -/
def scriptCallbackCopy (b : RubyBridgeState) (sc : ScriptLocal) : ScriptLocal :=
  { sc with shared_input := b.input_state, shared_picking_events := b.picking_events }

/-- The drains at the tail of the `set_callback` closure: append each staged
pending-operation list and the rumble queue to the bridge (in issue order),
move the camera latch when dirty, and propagate `SHOULD_STOP` into
`should_exit`. -/
def mergeStaging (sc : ScriptLocal) (b : RubyBridgeState) : ScriptLocal × RubyBridgeState :=
  let b := { b with sprite_sync.pending_operations :=
      b.sprite_sync.pending_operations ++ sc.pending_sprites.pending_operations }
  let sc := { sc with pending_sprites.pending_operations := [] }
  let b := { b with text_sync.pending_operations :=
      b.text_sync.pending_operations ++ sc.pending_texts.pending_operations }
  let sc := { sc with pending_texts.pending_operations := [] }
  let b := { b with mesh_sync.pending_operations :=
      b.mesh_sync.pending_operations ++ sc.pending_meshes.pending_operations }
  let sc := { sc with pending_meshes.pending_operations := [] }
  let b := { b with pending_gamepad_rumble :=
      b.pending_gamepad_rumble ++ sc.pending_gamepad_rumble }
  let sc := { sc with pending_gamepad_rumble := [] }
  let camera_dirty := sc.camera_dirty
  let sc := { sc with camera_dirty := false }
  let b :=
    if camera_dirty then
      { b with camera_position := sc.camera_position
               camera_scale := sc.camera_scale
               camera_dirty := true }
    else b
  let b := if sc.should_stop then { b with should_exit := true } else b
  (sc, b)

/-- Embeds `camera_sync_system`: if the latch is dirty, write position and scale into
every `Camera2d` transform and clear the flag; otherwise do nothing. -/
def camera_sync_system (b : RubyBridgeState) (cameras : List TransformQ) :
    RubyBridgeState × List TransformQ :=
  if b.camera_dirty = false then (b, cameras)
  else
    let apply := fun (t : TransformQ) =>
      { t with
        translation := ⟨b.camera_position.1, b.camera_position.2.1, b.camera_position.2.2⟩
        scale := ⟨b.camera_scale, b.camera_scale, t.scale.z⟩ }
    ({ b with camera_dirty := false }, cameras.map apply)

/-- One named step of the per-frame bridge work, in the order the source
executes them (phases of `ruby_bridge_system` and the four follow-up systems
as registered in `RenderApp::new`). -/
inductive FramePhase where
  | inputCapture
  | pickingCapture
  | scriptCallback
  | stagingMerge
  | rumble
  | exitCheck
  | spriteApply
  | textApply
  | meshApply
  | cameraApply
deriving DecidableEq, Repr

/-- Does this phase mutate entities / camera / rumble / exit (the mutations
whose cross-kind order §4.2 of the spec fixes)? -/
def FramePhase.isMutation : FramePhase → Bool
  | .rumble | .exitCheck | .spriteApply | .textApply | .meshApply | .cameraApply => true
  | _ => false

/-- The whole shared state of the program during `run`: the Ruby-thread
staging cells, the bridge, the Bevy world, the `Camera2d` transforms, the
rumble events sent so far, the `AppExit` flag, and an execution trace of the
frame phases (for stating ordering properties). -/
structure SystemState where
  script : ScriptLocal
  bridge : RubyBridgeState
  world : World
  cameras : List TransformQ
  rumble_requests : List GamepadRumbleRequest
  app_exit : Bool
  trace : List FramePhase
deriving DecidableEq, Repr

/-- The state at startup. -/
def SystemState.start : SystemState :=
  { script := ScriptLocal.init
    bridge := RubyBridgeState.default
    world := World.empty
    cameras := [{ translation := ⟨0, 0, 0⟩, rotation := ⟨0, 0, 0, 1⟩, scale := ⟨1, 1, 1⟩ }]
    rumble_requests := []
    app_exit := false
    trace := [] }

/-- Embeds `ruby_bridge_system`, first part: capture the input snapshot. -/
def phaseInputCapture (env : FrameEnv) (s : SystemState) : SystemState :=
  { s with bridge.input_state := captureInput env s.bridge.input_state
           trace := s.trace ++ [.inputCapture] }

/-- Embeds `ruby_bridge_system`, second part: clear and refill the picking buffer
from this frame's pointer events, in arrival order. -/
def phasePickingCapture (env : FrameEnv) (s : SystemState) : SystemState :=
  { s with bridge.picking_events := env.picking_events
           trace := s.trace ++ [.pickingCapture] }

/-- The `set_callback` closure up to and including the Ruby block: publish the
snapshots, then run the block's staging calls. -/
def phaseScriptCallback (block : List ScriptCmd) (s : SystemState) : SystemState :=
  let sc := scriptCallbackCopy s.bridge s.script
  let sc := block.foldl ScriptCmd.run sc
  { s with script := sc, trace := s.trace ++ [.scriptCallback] }

/-- The `set_callback` closure after the block: merge the staging cells. -/
def phaseStagingMerge (s : SystemState) : SystemState :=
  let merged := mergeStaging s.script s.bridge
  { s with script := merged.1, bridge := merged.2, trace := s.trace ++ [.stagingMerge] }

/-- Embeds `ruby_bridge_system`, after the callback: drain the rumble queue into
`GamepadRumbleRequest` events. -/
def phaseRumble (s : SystemState) : SystemState :=
  { s with
    rumble_requests :=
      s.rumble_requests ++ s.bridge.pending_gamepad_rumble.map GamepadRumbleCommand.toRequest
    bridge.pending_gamepad_rumble := []
    trace := s.trace ++ [.rumble] }

/-- Embeds `ruby_bridge_system`, last statement: send `AppExit` when `should_exit`. -/
def phaseExitCheck (s : SystemState) : SystemState :=
  { s with app_exit := s.app_exit || s.bridge.should_exit
           trace := s.trace ++ [.exitCheck] }

/-- Embeds `sprite_sync_system`. -/
def phaseSpriteApply (s : SystemState) : SystemState :=
  let applied := s.bridge.sprite_sync.apply_pending s.world
  { s with bridge.sprite_sync := applied.1, world := applied.2
           trace := s.trace ++ [.spriteApply] }

/-- Embeds `text_sync_system`. -/
def phaseTextApply (s : SystemState) : SystemState :=
  let applied := s.bridge.text_sync.apply_pending s.world
  { s with bridge.text_sync := applied.1, world := applied.2
           trace := s.trace ++ [.textApply] }

/-- Embeds `mesh_sync_system`. -/
def phaseMeshApply (s : SystemState) : SystemState :=
  let applied := s.bridge.mesh_sync.apply_pending s.world
  { s with bridge.mesh_sync := applied.1, world := applied.2
           trace := s.trace ++ [.meshApply] }

/-- Embeds `camera_sync_system` as a frame phase. -/
def phaseCameraApply (s : SystemState) : SystemState :=
  let applied := camera_sync_system s.bridge s.cameras
  { s with bridge := applied.1, cameras := applied.2
           trace := s.trace ++ [.cameraApply] }

/-- One frame of the `Update` schedule, with the five systems taken in the
order they are registered in `RenderApp::new` (the source declares no ordering
constraints between them; this sequential model is the charitable
single-threaded reading of that registration). -/
def runFrame (env : FrameEnv) (block : List ScriptCmd) (s : SystemState) : SystemState :=
  let s := phaseInputCapture env s
  let s := phasePickingCapture env s
  let s := phaseScriptCallback block s
  let s := phaseStagingMerge s
  let s := phaseRumble s
  let s := phaseExitCheck s
  let s := phaseSpriteApply s
  let s := phaseTextApply s
  let s := phaseMeshApply s
  phaseCameraApply s

/-! ## Association-list lemmas -/

theorem kvLookup_kvInsert_self {α : Type} (k : Nat) (v : α) (l : List (Nat × α)) :
    kvLookup k (kvInsert k v l) = some v := by
  induction l with
  | nil => simp [kvInsert, kvLookup]
  | cons hd tl ih =>
      by_cases h : hd.1 = k
      · simp [kvInsert, kvLookup, h]
      · simpa [kvInsert, kvLookup, h] using ih

theorem kvModify_of_lookup_none {α : Type} (k : Nat) (f : α → α) (l : List (Nat × α))
    (h : kvLookup k l = none) : kvModify k f l = l := by
  induction l with
  | nil => simp [kvModify]
  | cons hd tl ih =>
      by_cases hk : hd.1 = k
      · simp [kvLookup, hk] at h
      · simp [kvLookup, hk] at h
        simp [kvModify, hk, ih h]

theorem kvLookup_kvModify_self {α : Type} (k : Nat) (f : α → α) (l : List (Nat × α)) :
    kvLookup k (kvModify k f l) = (kvLookup k l).map f := by
  induction l with
  | nil => simp [kvModify, kvLookup]
  | cons hd tl ih =>
      by_cases hk : hd.1 = k
      · simp [kvModify, kvLookup, hk]
      · simpa [kvModify, kvLookup, hk] using ih

theorem kvErase_of_lookup_none {α : Type} (k : Nat) (l : List (Nat × α))
    (h : kvLookup k l = none) : kvErase k l = l := by
  induction l with
  | nil => simp [kvErase]
  | cons hd tl ih =>
      by_cases hk : hd.1 = k
      · simp [kvLookup, hk] at h
      · simp [kvLookup, hk] at h
        simp [kvErase, hk, ih h]

theorem isSome_false_eq_none {α : Type} {o : Option α} (h : o.isSome = false) : o = none := by
  cases o <;> simp_all

/-- A world with no components for `e` is untouched by `despawn e`. -/
theorem despawn_of_not_contains (w : World) (e : Nat) (h : w.contains e = false) :
    w.despawn e = w := by
  simp only [World.contains, Bool.or_eq_false_iff] at h
  obtain ⟨⟨⟨⟨⟨⟨⟨h1, h2⟩, h3⟩, h4⟩, h5⟩, h6⟩, h7⟩, h8⟩ := h
  cases w
  simp_all [World.despawn, kvErase_of_lookup_none, isSome_false_eq_none]

/-! ## C10 — staging only appends, id↦handle map untouched -/

/-- C10: for each of the three synchronizers, every staging operation
(`sync_*_standalone`, `remove_*_standalone`, `clear_standalone`) appends
exactly one operation to the pending queue and leaves the id↦handle map — and
hence `synced_entities`, `len` and `is_empty` — unchanged.  (`TextSync` does
not define `synced_entities` in the source, so its conjuncts cover `len` and
`is_empty`.) -/
theorem staging_appends_and_preserves_entity_map :
    (∀ (s : SpriteSync) (id : Nat) (sd : SpriteData) (td : TransformData),
        (s.sync_sprite_standalone id sd td).pending_operations
            = s.pending_operations ++ [SpriteOperation.sync id sd td]
        ∧ (s.sync_sprite_standalone id sd td).entity_map = s.entity_map
        ∧ (s.sync_sprite_standalone id sd td).synced_entities = s.synced_entities
        ∧ (s.sync_sprite_standalone id sd td).len = s.len
        ∧ (s.sync_sprite_standalone id sd td).is_empty = s.is_empty)
    ∧ (∀ (s : SpriteSync) (id : Nat),
        (s.remove_sprite_standalone id).pending_operations
            = s.pending_operations ++ [SpriteOperation.remove id]
        ∧ (s.remove_sprite_standalone id).entity_map = s.entity_map
        ∧ (s.remove_sprite_standalone id).synced_entities = s.synced_entities
        ∧ (s.remove_sprite_standalone id).len = s.len
        ∧ (s.remove_sprite_standalone id).is_empty = s.is_empty)
    ∧ (∀ s : SpriteSync,
        s.clear_standalone.pending_operations = s.pending_operations ++ [SpriteOperation.clear]
        ∧ s.clear_standalone.entity_map = s.entity_map
        ∧ s.clear_standalone.synced_entities = s.synced_entities
        ∧ s.clear_standalone.len = s.len
        ∧ s.clear_standalone.is_empty = s.is_empty)
    ∧ (∀ (s : TextSync) (id : Nat) (dd : TextData) (td : TextTransformData),
        (s.sync_text_standalone id dd td).pending_operations
            = s.pending_operations ++ [TextOperation.sync id dd td]
        ∧ (s.sync_text_standalone id dd td).entity_map = s.entity_map
        ∧ (s.sync_text_standalone id dd td).len = s.len
        ∧ (s.sync_text_standalone id dd td).is_empty = s.is_empty)
    ∧ (∀ (s : TextSync) (id : Nat),
        (s.remove_text_standalone id).pending_operations
            = s.pending_operations ++ [TextOperation.remove id]
        ∧ (s.remove_text_standalone id).entity_map = s.entity_map
        ∧ (s.remove_text_standalone id).len = s.len
        ∧ (s.remove_text_standalone id).is_empty = s.is_empty)
    ∧ (∀ s : TextSync,
        s.clear_standalone.pending_operations = s.pending_operations ++ [TextOperation.clear]
        ∧ s.clear_standalone.entity_map = s.entity_map
        ∧ s.clear_standalone.len = s.len
        ∧ s.clear_standalone.is_empty = s.is_empty)
    ∧ (∀ (s : MeshSync) (id : Nat) (md : MeshData) (td : MeshTransformData),
        (s.sync_mesh_standalone id md td).pending_operations
            = s.pending_operations ++ [MeshOperation.sync id md td]
        ∧ (s.sync_mesh_standalone id md td).entity_map = s.entity_map
        ∧ (s.sync_mesh_standalone id md td).synced_entities = s.synced_entities
        ∧ (s.sync_mesh_standalone id md td).len = s.len
        ∧ (s.sync_mesh_standalone id md td).is_empty = s.is_empty)
    ∧ (∀ (s : MeshSync) (id : Nat),
        (s.remove_mesh_standalone id).pending_operations
            = s.pending_operations ++ [MeshOperation.remove id]
        ∧ (s.remove_mesh_standalone id).entity_map = s.entity_map
        ∧ (s.remove_mesh_standalone id).synced_entities = s.synced_entities
        ∧ (s.remove_mesh_standalone id).len = s.len
        ∧ (s.remove_mesh_standalone id).is_empty = s.is_empty)
    ∧ (∀ s : MeshSync,
        s.clear_standalone.pending_operations = s.pending_operations ++ [MeshOperation.clear]
        ∧ s.clear_standalone.entity_map = s.entity_map
        ∧ s.clear_standalone.synced_entities = s.synced_entities
        ∧ s.clear_standalone.len = s.len
        ∧ s.clear_standalone.is_empty = s.is_empty) :=
  ⟨fun _ _ _ _ => ⟨rfl, rfl, rfl, rfl, rfl⟩,
   fun _ _ => ⟨rfl, rfl, rfl, rfl, rfl⟩,
   fun _ => ⟨rfl, rfl, rfl, rfl, rfl⟩,
   fun _ _ _ _ => ⟨rfl, rfl, rfl, rfl⟩,
   fun _ _ => ⟨rfl, rfl, rfl, rfl⟩,
   fun _ => ⟨rfl, rfl, rfl, rfl⟩,
   fun _ _ _ _ => ⟨rfl, rfl, rfl, rfl, rfl⟩,
   fun _ _ => ⟨rfl, rfl, rfl, rfl, rfl⟩,
   fun _ => ⟨rfl, rfl, rfl, rfl, rfl⟩⟩

/-! ## C8 — read-once picking events -/

/-- C8: after the frame's callback publishes the picking buffer, the first
`drain_picking_events` returns exactly the events accumulated for that frame
and empties the Ruby-side buffer, and a second call before the next frame's
publish returns the empty sequence. -/
theorem picking_events_read_once (b : RubyBridgeState) (sc : ScriptLocal) :
    (RubyRenderApp.drain_picking_events (scriptCallbackCopy b sc)).1 = b.picking_events
    ∧ (RubyRenderApp.drain_picking_events
        (scriptCallbackCopy b sc)).2.shared_picking_events = []
    ∧ (RubyRenderApp.drain_picking_events
        (RubyRenderApp.drain_picking_events (scriptCallbackCopy b sc)).2).1 = [] :=
  ⟨rfl, rfl, rfl⟩

/-! ## C6 — mouse delta -/

/-- C6 counterexample: the claim states the delta is zero on the first frame a
cursor position is observed.  In the code the previous position starts at
`(0, 0)`, so the first observed position `(3, 4)` yields a delta of `(3, 4)`,
not `(0, 0)`. -/
theorem first_frame_mouse_delta_not_zero :
    ¬ ((InputState.new.update_cursor_position (some (3, 4))).mouse_delta = ((0 : Q), (0 : Q))) := by
  norm_num [InputState.update_cursor_position, InputState.new]

/-- C6 amended: the reported delta is the current position minus the
previously *stored* position (the stored position starts at `(0, 0)` and is
left unchanged on frames with no cursor), so on the first frame a position is
observed the delta equals that position, not zero. -/
theorem mouse_delta_current_minus_stored :
    (∀ (s : InputState) (p : Q × Q),
        (s.update_cursor_position (some p)).mouse_delta
            = (p.1 - s.mouse_position.1, p.2 - s.mouse_position.2)
        ∧ (s.update_cursor_position (some p)).mouse_position = p)
    ∧ (∀ s : InputState, s.update_cursor_position none = s)
    ∧ (∀ p : Q × Q, (InputState.new.update_cursor_position (some p)).mouse_delta = p) := by
  refine ⟨fun s p => ⟨rfl, rfl⟩, fun s => rfl, fun p => ?_⟩
  simp [InputState.update_cursor_position, InputState.new]

/-! ## C3 — cross-kind apply order within a frame -/

/-- C3 counterexample: the spec claims the per-frame mutation order is
sprite, text, mesh, camera, rumble, exit-check.  In the source the rumble
drain and the exit check are the tail of `ruby_bridge_system`, which is
registered (and here executed) before the sprite/text/mesh/camera systems, so
the mutation phases of a concrete frame come out in a different order. -/
theorem frame_mutation_order_counterexample :
    ¬ ((runFrame FrameEnv.quiet [] SystemState.start).trace.filter FramePhase.isMutation
        = [FramePhase.spriteApply, FramePhase.textApply, FramePhase.meshApply,
           FramePhase.cameraApply, FramePhase.rumble, FramePhase.exitCheck]) := by
  decide

/-- C3 amended: within one frame, taking the five `Update` systems in the
order they are registered in `RenderApp::new` (the source declares no
ordering constraints between them), the bridge work always executes in the
fixed order: input capture, picking capture, script callback, staging merge,
then rumble, then the exit check, then sprite-kind, text-kind, mesh-kind
operations, then the camera update — i.e. rumble and the exit check run
*before* the entity and camera mutations, not after. -/
theorem frame_phase_order (env : FrameEnv) (block : List ScriptCmd) (s : SystemState) :
    (runFrame env block s).trace
      = s.trace ++ [FramePhase.inputCapture, FramePhase.pickingCapture,
          FramePhase.scriptCallback, FramePhase.stagingMerge, FramePhase.rumble,
          FramePhase.exitCheck, FramePhase.spriteApply, FramePhase.textApply,
          FramePhase.meshApply, FramePhase.cameraApply] := by
  simp [runFrame, phaseInputCapture, phasePickingCapture, phaseScriptCallback,
    phaseStagingMerge, phaseRumble, phaseExitCheck, phaseSpriteApply, phaseTextApply,
    phaseMeshApply, phaseCameraApply]

/-! ## C7 — camera latch coalescing -/

/-- C7: camera writes within one frame coalesce, last-writer-wins: a second
`set_camera_position` before the drain absorbs the first; the drain moves the
latched value (the last one) into the bridge and clears the Ruby-side dirty
flag; `camera_sync_system` then applies exactly one update — writing the last
position and the latched scale into every `Camera2d` transform — and clears
the bridge dirty flag, so running it again changes nothing. -/
theorem camera_latch_coalesces (sc : ScriptLocal) (b : RubyBridgeState)
    (cams : List TransformQ) (p1 p2 : Q × Q × Q) :
    RubyRenderApp.set_camera_position (RubyRenderApp.set_camera_position sc p1) p2
      = RubyRenderApp.set_camera_position sc p2
    ∧ (let merged := mergeStaging (RubyRenderApp.set_camera_position sc p2) b
       let synced := camera_sync_system merged.2 cams
       merged.1.camera_dirty = false
       ∧ merged.2.camera_position = p2
       ∧ merged.2.camera_scale = sc.camera_scale
       ∧ merged.2.camera_dirty = true
       ∧ synced.1.camera_dirty = false
       ∧ synced.2 = cams.map (fun t =>
           { t with translation := ⟨p2.1, p2.2.1, p2.2.2⟩
                    scale := ⟨sc.camera_scale, sc.camera_scale, t.scale.z⟩ })
       ∧ camera_sync_system synced.1 synced.2 = (synced.1, synced.2)) := by
  refine ⟨rfl, ?_⟩
  cases hs : sc.should_stop <;>
    simp [mergeStaging, RubyRenderApp.set_camera_position, camera_sync_system, hs]

/-! ## C4 — FIFO application, exactly once, order-preserving merge -/

theorem applySpriteOperation_pending (sw : SpriteSync × World) (op : SpriteOperation) :
    (applySpriteOperation sw op).1.pending_operations = sw.1.pending_operations := by
  rcases sw with ⟨s, w⟩
  cases op with
  | sync id sd td =>
      rcases h : kvLookup id s.entity_map with _ | e <;>
        simp [applySpriteOperation, SpriteSync.sync_sprite, h]
  | remove id =>
      rcases h : kvLookup id s.entity_map with _ | e <;>
        simp [applySpriteOperation, SpriteSync.remove_sprite, h]
  | clear => rfl

theorem foldl_applySpriteOperation_pending (ops : List SpriteOperation)
    (sw : SpriteSync × World) :
    ((ops.foldl applySpriteOperation sw).1).pending_operations = sw.1.pending_operations := by
  induction ops generalizing sw with
  | nil => rfl
  | cons op rest ih => rw [List.foldl_cons, ih, applySpriteOperation_pending]

theorem applyTextOperation_pending (sw : TextSync × World) (op : TextOperation) :
    (applyTextOperation sw op).1.pending_operations = sw.1.pending_operations := by
  rcases sw with ⟨s, w⟩
  cases op with
  | sync id dd td =>
      rcases h : kvLookup id s.entity_map with _ | e <;>
        simp [applyTextOperation, TextSync.sync_text, h]
  | remove id =>
      rcases h : kvLookup id s.entity_map with _ | e <;>
        simp [applyTextOperation, TextSync.remove_text, h]
  | clear => rfl

theorem foldl_applyTextOperation_pending (ops : List TextOperation)
    (sw : TextSync × World) :
    ((ops.foldl applyTextOperation sw).1).pending_operations = sw.1.pending_operations := by
  induction ops generalizing sw with
  | nil => rfl
  | cons op rest ih => rw [List.foldl_cons, ih, applyTextOperation_pending]

theorem applyMeshOperation_pending (sw : MeshSync × World) (op : MeshOperation) :
    (applyMeshOperation sw op).1.pending_operations = sw.1.pending_operations := by
  rcases sw with ⟨s, w⟩
  cases op with
  | sync id md td =>
      rcases h : kvLookup id s.entity_map with _ | e <;>
        rcases hs : md.shape_type <;>
          simp [applyMeshOperation, MeshSync.sync_mesh, h, hs]
  | remove id =>
      rcases h : kvLookup id s.entity_map with _ | e <;>
        simp [applyMeshOperation, MeshSync.remove_mesh, h]
  | clear => rfl

theorem foldl_applyMeshOperation_pending (ops : List MeshOperation)
    (sw : MeshSync × World) :
    ((ops.foldl applyMeshOperation sw).1).pending_operations = sw.1.pending_operations := by
  induction ops generalizing sw with
  | nil => rfl
  | cons op rest ih => rw [List.foldl_cons, ih, applyMeshOperation_pending]

/-- C4: queued operations are applied in exactly the order queued, each
exactly once, for all three kinds.  For each kind: (1) applying a queue
`p ++ q` equals applying `p` and then applying `q` on the resulting state
(so the queue is processed front to back with no reordering and no
interference); (2) `apply_pending` leaves the queue empty (nothing is applied
twice in a later frame); (3) a one-element queue performs exactly that one
operation; and (4) the `run_with_block` drain appends the staged operations
of the calling context to the bridge queue in issue order and empties the
staged buffer. -/
theorem fifo_exactly_once :
    (∀ (m : List (Nat × Nat)) (p q : List SpriteOperation) (w : World),
        SpriteSync.apply_pending ⟨m, p ++ q⟩ w
          = SpriteSync.apply_pending
              ⟨(SpriteSync.apply_pending ⟨m, p⟩ w).1.entity_map, q⟩
              (SpriteSync.apply_pending ⟨m, p⟩ w).2)
    ∧ (∀ (s : SpriteSync) (w : World), (s.apply_pending w).1.pending_operations = [])
    ∧ (∀ (m : List (Nat × Nat)) (w : World) (op : SpriteOperation),
        SpriteSync.apply_pending ⟨m, [op]⟩ w = applySpriteOperation (⟨m, []⟩, w) op)
    ∧ (∀ (m : List (Nat × Nat)) (p q : List TextOperation) (w : World),
        TextSync.apply_pending ⟨m, p ++ q⟩ w
          = TextSync.apply_pending
              ⟨(TextSync.apply_pending ⟨m, p⟩ w).1.entity_map, q⟩
              (TextSync.apply_pending ⟨m, p⟩ w).2)
    ∧ (∀ (s : TextSync) (w : World), (s.apply_pending w).1.pending_operations = [])
    ∧ (∀ (m : List (Nat × Nat)) (w : World) (op : TextOperation),
        TextSync.apply_pending ⟨m, [op]⟩ w = applyTextOperation (⟨m, []⟩, w) op)
    ∧ (∀ (m : List (Nat × Nat)) (p q : List MeshOperation) (w : World),
        MeshSync.apply_pending ⟨m, p ++ q⟩ w
          = MeshSync.apply_pending
              ⟨(MeshSync.apply_pending ⟨m, p⟩ w).1.entity_map, q⟩
              (MeshSync.apply_pending ⟨m, p⟩ w).2)
    ∧ (∀ (s : MeshSync) (w : World), (s.apply_pending w).1.pending_operations = [])
    ∧ (∀ (m : List (Nat × Nat)) (w : World) (op : MeshOperation),
        MeshSync.apply_pending ⟨m, [op]⟩ w = applyMeshOperation (⟨m, []⟩, w) op)
    ∧ (∀ (sc : ScriptLocal) (b : RubyBridgeState),
        (mergeStaging sc b).2.sprite_sync.pending_operations
            = b.sprite_sync.pending_operations ++ sc.pending_sprites.pending_operations
        ∧ (mergeStaging sc b).1.pending_sprites.pending_operations = []
        ∧ (mergeStaging sc b).2.text_sync.pending_operations
            = b.text_sync.pending_operations ++ sc.pending_texts.pending_operations
        ∧ (mergeStaging sc b).1.pending_texts.pending_operations = []
        ∧ (mergeStaging sc b).2.mesh_sync.pending_operations
            = b.mesh_sync.pending_operations ++ sc.pending_meshes.pending_operations
        ∧ (mergeStaging sc b).1.pending_meshes.pending_operations = []
        ∧ (mergeStaging sc b).2.pending_gamepad_rumble
            = b.pending_gamepad_rumble ++ sc.pending_gamepad_rumble
        ∧ (mergeStaging sc b).1.pending_gamepad_rumble = []) := by
  refine ⟨?_, ?_, ?_, ?_, ?_, ?_, ?_, ?_, ?_, ?_⟩
  · intro m p q w
    show (p ++ q).foldl applySpriteOperation (⟨m, []⟩, w) = _
    rw [List.foldl_append]
    have hpend := foldl_applySpriteOperation_pending p (⟨⟨m, []⟩, w⟩)
    rcases hr : p.foldl applySpriteOperation (⟨m, []⟩, w) with ⟨s1, w1⟩
    rw [hr] at hpend
    show q.foldl applySpriteOperation (s1, w1) = _
    rcases s1 with ⟨m1, p1⟩
    simp only at hpend
    subst hpend
    simp [SpriteSync.apply_pending, hr]
  · intro s w
    exact foldl_applySpriteOperation_pending s.pending_operations _
  · intro m w op
    simp [SpriteSync.apply_pending]
  · intro m p q w
    show (p ++ q).foldl applyTextOperation (⟨m, []⟩, w) = _
    rw [List.foldl_append]
    have hpend := foldl_applyTextOperation_pending p (⟨⟨m, []⟩, w⟩)
    rcases hr : p.foldl applyTextOperation (⟨m, []⟩, w) with ⟨s1, w1⟩
    rw [hr] at hpend
    show q.foldl applyTextOperation (s1, w1) = _
    rcases s1 with ⟨m1, p1⟩
    simp only at hpend
    subst hpend
    simp [TextSync.apply_pending, hr]
  · intro s w
    exact foldl_applyTextOperation_pending s.pending_operations _
  · intro m w op
    simp [TextSync.apply_pending]
  · intro m p q w
    show (p ++ q).foldl applyMeshOperation (⟨m, []⟩, w) = _
    rw [List.foldl_append]
    have hpend := foldl_applyMeshOperation_pending p (⟨⟨m, []⟩, w⟩)
    rcases hr : p.foldl applyMeshOperation (⟨m, []⟩, w) with ⟨s1, w1⟩
    rw [hr] at hpend
    show q.foldl applyMeshOperation (s1, w1) = _
    rcases s1 with ⟨m1, p1⟩
    simp only at hpend
    subst hpend
    simp [MeshSync.apply_pending, hr]
  · intro s w
    exact foldl_applyMeshOperation_pending s.pending_operations _
  · intro m w op
    simp [MeshSync.apply_pending]
  · intro sc b
    cases hd : sc.camera_dirty <;> cases hs : sc.should_stop <;>
      simp [mergeStaging, hd, hs]

/-! ## C5 — upsert updates in place or creates exactly once -/

/-- The sprite-component update `sync_sprite` performs on a recorded entity. -/
def spriteUpdateOf (sd : SpriteData) (sprite : SpriteComp) : SpriteComp :=
  { sprite with
    color := Color.srgba sd.color_r sd.color_g sd.color_b sd.color_a
    custom_size :=
      if sd.has_custom_size then some (sd.custom_size_x, sd.custom_size_y) else none
    flip_x := sd.flip_x
    flip_y := sd.flip_y }

/-- The sprite component `sync_sprite` spawns for an unrecorded id. -/
def spriteSpawnOf (sd : SpriteData) (texture : Option Nat) : SpriteComp :=
  { color := Color.srgba sd.color_r sd.color_g sd.color_b sd.color_a
    custom_size :=
      if sd.has_custom_size then some (sd.custom_size_x, sd.custom_size_y) else none
    flip_x := sd.flip_x
    flip_y := sd.flip_y
    image := texture.getD 0 }

theorem sync_sprite_recorded (s : SpriteSync) (w : World) (id : Nat)
    (sd : SpriteData) (td : TransformData) (e : Nat)
    (h : kvLookup id s.entity_map = some e) :
    s.sync_sprite w id sd td
      = (s, { w with sprites := kvModify e (spriteUpdateOf sd) w.sprites
                     transforms := kvModify e (fun _ => transformOfData td) w.transforms }) := by
  simp only [SpriteSync.sync_sprite, h]
  rfl

theorem sync_sprite_unrecorded (s : SpriteSync) (w : World) (id : Nat)
    (sd : SpriteData) (td : TransformData)
    (h : kvLookup id s.entity_map = none) :
    s.sync_sprite w id sd td
      = ({ s with entity_map := kvInsert id w.next_entity s.entity_map },
         { w with
           next_entity := w.next_entity + 1
           sprites := w.sprites ++
             [(w.next_entity, spriteSpawnOf sd w.default_sprite_texture)]
           transforms := w.transforms ++ [(w.next_entity, transformOfData td)] }) := by
  simp [SpriteSync.sync_sprite, h, spriteSpawnOf]

/-- C5: an `Upsert` for an id with a recorded handle updates that entity's
sprite data and transform in place — same handle, same map, no new entity —
while an `Upsert` for an unrecorded id spawns exactly one new entity and
records `id ↦ handle`; consequently two upserts for the same id applied in
two different frames leave exactly one recorded handle (the one spawned by
the first), and the second never creates. -/
theorem upsert_idempotent :
    (∀ (s : SpriteSync) (w : World) (id : Nat) (sd : SpriteData) (td : TransformData)
        (e : Nat), kvLookup id s.entity_map = some e →
        (s.sync_sprite w id sd td).1 = s
        ∧ (s.sync_sprite w id sd td).2.next_entity = w.next_entity
        ∧ kvLookup e (s.sync_sprite w id sd td).2.sprites
            = (kvLookup e w.sprites).map (spriteUpdateOf sd)
        ∧ kvLookup e (s.sync_sprite w id sd td).2.transforms
            = (kvLookup e w.transforms).map (fun _ => transformOfData td))
    ∧ (∀ (s : SpriteSync) (w : World) (id : Nat) (sd : SpriteData) (td : TransformData),
        kvLookup id s.entity_map = none →
        (s.sync_sprite w id sd td).1.entity_map = kvInsert id w.next_entity s.entity_map
        ∧ (s.sync_sprite w id sd td).1.pending_operations = s.pending_operations
        ∧ (s.sync_sprite w id sd td).2.next_entity = w.next_entity + 1
        ∧ (s.sync_sprite w id sd td).2.sprites
            = w.sprites ++ [(w.next_entity, spriteSpawnOf sd w.default_sprite_texture)]
        ∧ (s.sync_sprite w id sd td).2.transforms
            = w.transforms ++ [(w.next_entity, transformOfData td)])
    ∧ (∀ (m : List (Nat × Nat)) (w : World) (id : Nat) (sd1 sd2 : SpriteData)
        (td1 td2 : TransformData), kvLookup id m = none →
        (SpriteSync.apply_pending ⟨m, [SpriteOperation.sync id sd1 td1]⟩ w).1.entity_map
            = kvInsert id w.next_entity m
        ∧ kvLookup id
            (SpriteSync.apply_pending ⟨m, [SpriteOperation.sync id sd1 td1]⟩ w).1.entity_map
            = some w.next_entity
        ∧ (SpriteSync.apply_pending
            ⟨(SpriteSync.apply_pending ⟨m, [SpriteOperation.sync id sd1 td1]⟩ w).1.entity_map,
              [SpriteOperation.sync id sd2 td2]⟩
            (SpriteSync.apply_pending ⟨m, [SpriteOperation.sync id sd1 td1]⟩ w).2).1.entity_map
            = kvInsert id w.next_entity m
        ∧ (SpriteSync.apply_pending
            ⟨(SpriteSync.apply_pending ⟨m, [SpriteOperation.sync id sd1 td1]⟩ w).1.entity_map,
              [SpriteOperation.sync id sd2 td2]⟩
            (SpriteSync.apply_pending ⟨m, [SpriteOperation.sync id sd1 td1]⟩ w).2).2.next_entity
            = w.next_entity + 1) := by
  refine ⟨?_, ?_, ?_⟩
  · intro s w id sd td e h
    rw [sync_sprite_recorded s w id sd td e h]
    exact ⟨rfl, rfl, kvLookup_kvModify_self .., kvLookup_kvModify_self ..⟩
  · intro s w id sd td h
    rw [sync_sprite_unrecorded s w id sd td h]
    exact ⟨rfl, rfl, rfl, rfl, rfl⟩
  · intro m w id sd1 sd2 td1 td2 h
    have h1 : SpriteSync.apply_pending ⟨m, [SpriteOperation.sync id sd1 td1]⟩ w
        = SpriteSync.sync_sprite ⟨m, []⟩ w id sd1 td1 := by
      simp [SpriteSync.apply_pending, applySpriteOperation]
    rw [h1, sync_sprite_unrecorded ⟨m, []⟩ w id sd1 td1 h]
    have h2 : kvLookup id (kvInsert id w.next_entity m) = some w.next_entity :=
      kvLookup_kvInsert_self ..
    have h3 : SpriteSync.apply_pending ⟨kvInsert id w.next_entity m,
          [SpriteOperation.sync id sd2 td2]⟩
          ({ w with
             next_entity := w.next_entity + 1
             sprites := w.sprites ++
               [(w.next_entity, spriteSpawnOf sd1 w.default_sprite_texture)]
             transforms := w.transforms ++ [(w.next_entity, transformOfData td1)] })
        = SpriteSync.sync_sprite ⟨kvInsert id w.next_entity m, []⟩
            ({ w with
               next_entity := w.next_entity + 1
               sprites := w.sprites ++
                 [(w.next_entity, spriteSpawnOf sd1 w.default_sprite_texture)]
               transforms := w.transforms ++ [(w.next_entity, transformOfData td1)] })
            id sd2 td2 := by
      simp [SpriteSync.apply_pending, applySpriteOperation]
    refine ⟨rfl, h2, ?_, ?_⟩
    · rw [h3, sync_sprite_recorded _ _ id sd2 td2 w.next_entity h2]
    · rw [h3, sync_sprite_recorded _ _ id sd2 td2 w.next_entity h2]

/-- C5 witness: the update branch on a recorded id `7 ↦ 3`, the create branch
on an unrecorded id, and the two-frame double upsert, all instantiated at
concrete states. -/
theorem upsert_idempotent_witness :
    ((SpriteSync.sync_sprite ⟨[(7, 3)], []⟩ World.empty 7 SpriteData.default
        TransformData.default).1 = ⟨[(7, 3)], []⟩
     ∧ (SpriteSync.sync_sprite ⟨[(7, 3)], []⟩ World.empty 7 SpriteData.default
        TransformData.default).2.next_entity = World.empty.next_entity
     ∧ kvLookup 3 (SpriteSync.sync_sprite ⟨[(7, 3)], []⟩ World.empty 7 SpriteData.default
        TransformData.default).2.sprites
          = (kvLookup 3 World.empty.sprites).map (spriteUpdateOf SpriteData.default)
     ∧ kvLookup 3 (SpriteSync.sync_sprite ⟨[(7, 3)], []⟩ World.empty 7 SpriteData.default
        TransformData.default).2.transforms
          = (kvLookup 3 World.empty.transforms).map
              (fun _ => transformOfData TransformData.default))
    ∧ ((SpriteSync.sync_sprite SpriteSync.new World.empty 7 SpriteData.default
        TransformData.default).1.entity_map
          = kvInsert 7 World.empty.next_entity SpriteSync.new.entity_map
     ∧ (SpriteSync.sync_sprite SpriteSync.new World.empty 7 SpriteData.default
        TransformData.default).1.pending_operations = SpriteSync.new.pending_operations
     ∧ (SpriteSync.sync_sprite SpriteSync.new World.empty 7 SpriteData.default
        TransformData.default).2.next_entity = World.empty.next_entity + 1
     ∧ (SpriteSync.sync_sprite SpriteSync.new World.empty 7 SpriteData.default
        TransformData.default).2.sprites
          = World.empty.sprites ++
              [(World.empty.next_entity,
                spriteSpawnOf SpriteData.default World.empty.default_sprite_texture)]
     ∧ (SpriteSync.sync_sprite SpriteSync.new World.empty 7 SpriteData.default
        TransformData.default).2.transforms
          = World.empty.transforms ++
              [(World.empty.next_entity, transformOfData TransformData.default)])
    ∧ (kvLookup 7
        (SpriteSync.apply_pending
          ⟨[], [SpriteOperation.sync 7 SpriteData.default TransformData.default]⟩
          World.empty).1.entity_map = some World.empty.next_entity) :=
  ⟨upsert_idempotent.1 ⟨[(7, 3)], []⟩ World.empty 7 SpriteData.default
      TransformData.default 3 (by decide),
   upsert_idempotent.2.1 SpriteSync.new World.empty 7 SpriteData.default
      TransformData.default (by decide),
   (upsert_idempotent.2.2 [] World.empty 7 SpriteData.default SpriteData.default
      TransformData.default TransformData.default (by decide)).2.1⟩

/-! ## C2 — recorded handle missing from the store -/

theorem lookups_of_not_contains (w : World) (e : Nat) (h : w.contains e = false) :
    kvLookup e w.sprites = none ∧ kvLookup e w.transforms = none
    ∧ kvLookup e w.fills = none ∧ kvLookup e w.strokes = none := by
  simp only [World.contains, Bool.or_eq_false_iff] at h
  obtain ⟨⟨⟨⟨⟨⟨⟨h1, h2⟩, h3⟩, h4⟩, h5⟩, h6⟩, h7⟩, h8⟩ := h
  exact ⟨isSome_false_eq_none h1, isSome_false_eq_none h2,
    isSome_false_eq_none h6, isSome_false_eq_none h7⟩

/-- C2 counterexample: the claim requires an abort or panic when the store
reports a recorded handle as missing.  Here the mapping records `7 ↦ 3` but
the store holds no entity `3`; applying the queued `Upsert` returns normally
— the drained queue is the only change — silently skipping the update
instead of panicking. -/
theorem missing_handle_no_panic :
    SpriteSync.apply_pending
        ⟨[(7, 3)], [SpriteOperation.sync 7 SpriteData.default TransformData.default]⟩
        World.empty
      = (⟨[(7, 3)], []⟩, World.empty) := rfl

/-- C2 amended: when an `Upsert` is applied for an id whose recorded handle
has no components in the store, the update is silently skipped — the call
returns normally with the store and the mapping unchanged (the handle is
still recorded); a `Remove` in the same situation erases the mapping and its
despawn is a no-op.  No code path aborts or panics.  (Shown for the sprite
and mesh synchronizers, the two cited by the claim.) -/
theorem missing_handle_silent_skip :
    (∀ (s : SpriteSync) (w : World) (id : Nat) (sd : SpriteData) (td : TransformData)
        (e : Nat), kvLookup id s.entity_map = some e → w.contains e = false →
        s.sync_sprite w id sd td = (s, w))
    ∧ (∀ (s : MeshSync) (w : World) (id : Nat) (md : MeshData) (td : MeshTransformData)
        (e : Nat), kvLookup id s.entity_map = some e → w.contains e = false →
        s.sync_mesh w id md td = (s, w))
    ∧ (∀ (s : SpriteSync) (w : World) (id : Nat) (e : Nat),
        kvLookup id s.entity_map = some e → w.contains e = false →
        s.remove_sprite w id = ({ s with entity_map := kvErase id s.entity_map }, w))
    ∧ (∀ (s : MeshSync) (w : World) (id : Nat) (e : Nat),
        kvLookup id s.entity_map = some e → w.contains e = false →
        s.remove_mesh w id = ({ s with entity_map := kvErase id s.entity_map }, w)) := by
  refine ⟨?_, ?_, ?_, ?_⟩
  · intro s w id sd td e h hc
    obtain ⟨hsp, htr, _, _⟩ := lookups_of_not_contains w e hc
    rw [sync_sprite_recorded s w id sd td e h,
      kvModify_of_lookup_none _ _ _ hsp, kvModify_of_lookup_none _ _ _ htr]
  · intro s w id md td e h hc
    obtain ⟨_, htr, hfl, hst⟩ := lookups_of_not_contains w e hc
    simp only [MeshSync.sync_mesh, h]
    rw [kvModify_of_lookup_none _ _ _ htr, kvModify_of_lookup_none _ _ _ hfl,
      kvModify_of_lookup_none _ _ _ hst]
  · intro s w id e h hc
    simp only [SpriteSync.remove_sprite, h, despawn_of_not_contains w e hc]
  · intro s w id e h hc
    simp only [MeshSync.remove_mesh, h, despawn_of_not_contains w e hc]

/-- C2 amended, witness: mapping `7 ↦ 3` with entity `3` absent from the
empty store, for all four conjuncts. -/
theorem missing_handle_silent_skip_witness :
    (SpriteSync.sync_sprite ⟨[(7, 3)], []⟩ World.empty 7 SpriteData.default
        TransformData.default = (⟨[(7, 3)], []⟩, World.empty))
    ∧ (MeshSync.sync_mesh ⟨[(7, 3)], []⟩ World.empty 7 MeshData.default
        MeshTransformData.default = (⟨[(7, 3)], []⟩, World.empty))
    ∧ (SpriteSync.remove_sprite ⟨[(7, 3)], []⟩ World.empty 7
        = (⟨kvErase 7 [(7, 3)], []⟩, World.empty))
    ∧ (MeshSync.remove_mesh ⟨[(7, 3)], []⟩ World.empty 7
        = (⟨kvErase 7 [(7, 3)], []⟩, World.empty)) :=
  ⟨missing_handle_silent_skip.1 ⟨[(7, 3)], []⟩ World.empty 7 SpriteData.default
      TransformData.default 3 (by decide) (by decide),
   missing_handle_silent_skip.2.1 ⟨[(7, 3)], []⟩ World.empty 7 MeshData.default
      MeshTransformData.default 3 (by decide) (by decide),
   missing_handle_silent_skip.2.2.1 ⟨[(7, 3)], []⟩ World.empty 7 3 (by decide) (by decide),
   missing_handle_silent_skip.2.2.2 ⟨[(7, 3)], []⟩ World.empty 7 3 (by decide) (by decide)⟩

/-! ## C9 — the exit signal is monotonic -/

theorem scriptCmdRun_stop_mono (c : ScriptCmd) (sc : ScriptLocal)
    (h : sc.should_stop = true) : (ScriptCmd.run sc c).should_stop = true := by
  cases c <;>
    simp_all [ScriptCmd.run, RubyRenderApp.remove_sprite, RubyRenderApp.clear_sprites,
      RubyRenderApp.remove_text, RubyRenderApp.clear_texts, RubyRenderApp.remove_mesh,
      RubyRenderApp.clear_meshes, RubyRenderApp.set_camera_position,
      RubyRenderApp.set_camera_scale, RubyRenderApp.queue_gamepad_rumble,
      RubyRenderApp.stop, RubyRenderApp.drain_picking_events]

theorem foldl_scriptRun_stop_mono (block : List ScriptCmd) (sc : ScriptLocal)
    (h : sc.should_stop = true) : (block.foldl ScriptCmd.run sc).should_stop = true := by
  induction block generalizing sc with
  | nil => exact h
  | cons c rest ih => exact ih _ (scriptCmdRun_stop_mono c sc h)

theorem mergeStaging_should_stop (sc : ScriptLocal) (b : RubyBridgeState) :
    (mergeStaging sc b).1.should_stop = sc.should_stop := by
  cases hd : sc.camera_dirty <;> cases hs : sc.should_stop <;> simp [mergeStaging, hd, hs]

theorem mergeStaging_should_exit (sc : ScriptLocal) (b : RubyBridgeState) :
    (mergeStaging sc b).2.should_exit = (sc.should_stop || b.should_exit) := by
  cases hd : sc.camera_dirty <;> cases hs : sc.should_stop <;> simp [mergeStaging, hd, hs]

theorem camera_sync_should_exit (b : RubyBridgeState) (cams : List TransformQ) :
    (camera_sync_system b cams).1.should_exit = b.should_exit := by
  by_cases hd : b.camera_dirty = false <;> simp [camera_sync_system, hd]

theorem runFrame_stop_mono (env : FrameEnv) (block : List ScriptCmd) (s : SystemState)
    (h : s.script.should_stop = true) :
    (runFrame env block s).script.should_stop = true := by
  simp only [runFrame, phaseInputCapture, phasePickingCapture, phaseScriptCallback,
    phaseStagingMerge, phaseRumble, phaseExitCheck, phaseSpriteApply, phaseTextApply,
    phaseMeshApply, phaseCameraApply, mergeStaging_should_stop]
  exact foldl_scriptRun_stop_mono block _ h

theorem runFrame_exit_mono (env : FrameEnv) (block : List ScriptCmd) (s : SystemState)
    (h : s.bridge.should_exit = true) :
    (runFrame env block s).bridge.should_exit = true := by
  simp only [runFrame, phaseInputCapture, phasePickingCapture, phaseScriptCallback,
    phaseStagingMerge, phaseRumble, phaseExitCheck, phaseSpriteApply, phaseTextApply,
    phaseMeshApply, phaseCameraApply, camera_sync_should_exit, mergeStaging_should_exit]
  simp [h]

theorem runFrame_stop_sets_exit (env : FrameEnv) (block : List ScriptCmd) (s : SystemState)
    (h : s.script.should_stop = true) :
    (runFrame env block s).bridge.should_exit = true
    ∧ (runFrame env block s).app_exit = true := by
  simp only [runFrame, phaseInputCapture, phasePickingCapture, phaseScriptCallback,
    phaseStagingMerge, phaseRumble, phaseExitCheck, phaseSpriteApply, phaseTextApply,
    phaseMeshApply, phaseCameraApply, camera_sync_should_exit, mergeStaging_should_exit]
  refine ⟨?_, ?_⟩ <;> simp only [Bool.or_eq_true]
  · exact Or.inl (foldl_scriptRun_stop_mono block _ h)
  · exact Or.inr (Or.inl (foldl_scriptRun_stop_mono block _ h))

theorem runFrame_app_exit_mono (env : FrameEnv) (block : List ScriptCmd) (s : SystemState)
    (h : s.app_exit = true) : (runFrame env block s).app_exit = true := by
  simp only [runFrame, phaseInputCapture, phasePickingCapture, phaseScriptCallback,
    phaseStagingMerge, phaseRumble, phaseExitCheck, phaseSpriteApply, phaseTextApply,
    phaseMeshApply, phaseCameraApply]
  simp [h]

/-- C9: the exit signal is monotonic.  No staging call ever resets the Ruby
side `SHOULD_STOP` once set; no frame ever transitions the bridge
`should_exit` from true back to false; and once `stop` has set the flag,
the frame that observes it sets `should_exit` and sends `AppExit`, and every
subsequent frame still observes both flags true. -/
theorem exit_signal_monotonic :
    (∀ (c : ScriptCmd) (sc : ScriptLocal),
        sc.should_stop = true → (ScriptCmd.run sc c).should_stop = true)
    ∧ (∀ (env : FrameEnv) (block : List ScriptCmd) (s : SystemState),
        s.bridge.should_exit = true → (runFrame env block s).bridge.should_exit = true)
    ∧ (∀ (frames : List (FrameEnv × List ScriptCmd)) (env : FrameEnv)
        (block : List ScriptCmd) (s : SystemState),
        s.script.should_stop = true →
        (frames.foldl (fun st fr => runFrame fr.1 fr.2 st)
            (runFrame env block s)).script.should_stop = true
        ∧ (frames.foldl (fun st fr => runFrame fr.1 fr.2 st)
            (runFrame env block s)).bridge.should_exit = true
        ∧ (frames.foldl (fun st fr => runFrame fr.1 fr.2 st)
            (runFrame env block s)).app_exit = true) := by
  have key : ∀ (frames : List (FrameEnv × List ScriptCmd)) (s : SystemState),
      s.script.should_stop = true → s.bridge.should_exit = true → s.app_exit = true →
      (frames.foldl (fun st fr => runFrame fr.1 fr.2 st) s).script.should_stop = true
      ∧ (frames.foldl (fun st fr => runFrame fr.1 fr.2 st) s).bridge.should_exit = true
      ∧ (frames.foldl (fun st fr => runFrame fr.1 fr.2 st) s).app_exit = true := by
    intro frames
    induction frames with
    | nil => exact fun s h1 h2 h3 => ⟨h1, h2, h3⟩
    | cons fr rest ih =>
        intro s h1 h2 h3
        exact ih _ (runFrame_stop_mono fr.1 fr.2 s h1)
          (runFrame_exit_mono fr.1 fr.2 s h2) (runFrame_app_exit_mono fr.1 fr.2 s h3)
  refine ⟨scriptCmdRun_stop_mono, runFrame_exit_mono, ?_⟩
  intro frames env block s h
  exact key frames (runFrame env block s) (runFrame_stop_mono env block s h)
    (runFrame_stop_sets_exit env block s h).1 (runFrame_stop_sets_exit env block s h).2

/-- C9 witness: from the start state with `stop` already requested, one quiet
frame (and none after it) observes the exit flags. -/
theorem exit_signal_monotonic_witness :
    (([] : List (FrameEnv × List ScriptCmd)).foldl (fun st fr => runFrame fr.1 fr.2 st)
        (runFrame FrameEnv.quiet []
          { SystemState.start with script.should_stop := true })).script.should_stop = true
    ∧ (([] : List (FrameEnv × List ScriptCmd)).foldl (fun st fr => runFrame fr.1 fr.2 st)
        (runFrame FrameEnv.quiet []
          { SystemState.start with script.should_stop := true })).bridge.should_exit = true
    ∧ (([] : List (FrameEnv × List ScriptCmd)).foldl (fun st fr => runFrame fr.1 fr.2 st)
        (runFrame FrameEnv.quiet []
          { SystemState.start with script.should_stop := true })).app_exit = true :=
  exit_signal_monotonic.2.2 [] FrameEnv.quiet []
    { SystemState.start with script.should_stop := true } rfl

/-! ## C1 — malformed payloads at the staging boundary -/

/-- C1 counterexample: the claim requires an unknown entity-kind tag to be
rejected with an error and stage nothing.  `sync_mesh` with the unknown shape
tag `5` succeeds and stages an operation whose shape has been silently
coerced to `Rectangle` (the `_ => ShapeType::Rectangle` arm of
`parse_mesh_data`). -/
theorem unknown_shape_tag_accepted :
    RubyRenderApp.sync_mesh (fun _ => 0) (fun _ => 1) 1
        [("shape_type", RVal.int 5)] [] ScriptLocal.init
      = Except.ok { ScriptLocal.init with pending_meshes :=
          { entity_map := []
            pending_operations :=
              [MeshOperation.sync 1 MeshData.default MeshTransformData.default] } } := rfl

/-- C1 amended: a payload field whose Ruby value cannot convert to the
expected type makes the staging call (`sync_sprite` / `sync_text` /
`sync_mesh`) return the conversion error to the caller and stage nothing
(the parse happens before anything is pushed); a parse success stages exactly
the parsed payload.  However an integer shape-kind tag outside `0..=4` is not
rejected: it is silently coerced to `Rectangle` (and numeric fields are
accepted without range checks, absent or `nil` fields falling back to
defaults). -/
theorem malformed_payload_staging :
    (∀ (sinH cosH : Q → Q) (id : Nat) (h tf : RubyHash) (sc : ScriptLocal) (e : String),
        parse_mesh_data h = .error e →
        RubyRenderApp.sync_mesh sinH cosH id h tf sc = .error e)
    ∧ (∀ (sinH cosH : Q → Q) (id : Nat) (h tf : RubyHash) (sc : ScriptLocal)
        (md : MeshData) (e : String),
        parse_mesh_data h = .ok md → parse_mesh_transform_data sinH cosH tf = .error e →
        RubyRenderApp.sync_mesh sinH cosH id h tf sc = .error e)
    ∧ (∀ (sinH cosH : Q → Q) (id : Nat) (h tf : RubyHash) (sc : ScriptLocal)
        (md : MeshData) (td : MeshTransformData),
        parse_mesh_data h = .ok md → parse_mesh_transform_data sinH cosH tf = .ok td →
        RubyRenderApp.sync_mesh sinH cosH id h tf sc
          = .ok { sc with pending_meshes := sc.pending_meshes.sync_mesh_standalone id md td })
    ∧ (∀ (sinH cosH : Q → Q) (id : Nat) (h tf : RubyHash) (sc : ScriptLocal) (e : String),
        parse_sprite_data h = .error e →
        RubyRenderApp.sync_sprite sinH cosH id h tf sc = .error e)
    ∧ (∀ (sinH cosH : Q → Q) (id : Nat) (h tf : RubyHash) (sc : ScriptLocal)
        (sd : SpriteData) (td : TransformData),
        parse_sprite_data h = .ok sd → parse_transform_data sinH cosH tf = .ok td →
        RubyRenderApp.sync_sprite sinH cosH id h tf sc
          = .ok { sc with pending_sprites :=
              sc.pending_sprites.sync_sprite_standalone id sd td })
    ∧ (∀ (id : Nat) (h tf : RubyHash) (sc : ScriptLocal) (e : String),
        parse_text_data h = .error e →
        RubyRenderApp.sync_text id h tf sc = .error e)
    ∧ (∀ (id : Nat) (h tf : RubyHash) (sc : ScriptLocal)
        (dd : TextData) (td : TextTransformData),
        parse_text_data h = .ok dd → parse_text_transform_data tf = .ok td →
        RubyRenderApp.sync_text id h tf sc
          = .ok { sc with pending_texts := sc.pending_texts.sync_text_standalone id dd td })
    ∧ (∀ n : Int, n ≠ 0 → n ≠ 1 → n ≠ 2 → n ≠ 3 → n ≠ 4 →
        shapeTypeOfTag n = ShapeType.rectangle
        ∧ parse_mesh_data [("shape_type", RVal.int n)] = .ok MeshData.default) := by
  refine ⟨?_, ?_, ?_, ?_, ?_, ?_, ?_, ?_⟩
  · intro sinH cosH id h tf sc e hp
    simp [RubyRenderApp.sync_mesh, hp, Except.instMonad, Except.bind]
  · intro sinH cosH id h tf sc md e hp ht
    simp [RubyRenderApp.sync_mesh, hp, ht, Except.instMonad, Except.bind]
  · intro sinH cosH id h tf sc md td hp ht
    simp [RubyRenderApp.sync_mesh, hp, ht, Except.instMonad, Except.bind]
  · intro sinH cosH id h tf sc e hp
    simp [RubyRenderApp.sync_sprite, hp, Except.instMonad, Except.bind]
  · intro sinH cosH id h tf sc sd td hp ht
    simp [RubyRenderApp.sync_sprite, hp, ht, Except.instMonad, Except.bind]
  · intro id h tf sc e hp
    simp [RubyRenderApp.sync_text, hp, Except.instMonad, Except.bind]
  · intro id h tf sc dd td hp ht
    simp [RubyRenderApp.sync_text, hp, ht, Except.instMonad, Except.bind]
  · intro n h0 h1 h2 h3 h4
    refine ⟨by simp [shapeTypeOfTag, h0, h1, h2, h3, h4], ?_⟩
    simp [parse_mesh_data, getInt, getFloat, getBool, List.lookup, shapeTypeOfTag,
      h0, h1, h2, h3, h4, MeshData.default, Except.instMonad, Except.bind]

/-- C1 amended, witness: one type-mismatched and one successful instantiation
per staging call, and the tag coercion at tag `5`. -/
theorem malformed_payload_staging_witness :
    (RubyRenderApp.sync_mesh (fun _ => 0) (fun _ => 1) 1
        [("shape_type", RVal.str "circle")] [] ScriptLocal.init
      = .error "no implicit conversion into Integer")
    ∧ (RubyRenderApp.sync_mesh (fun _ => 0) (fun _ => 1) 1 []
        [("x", RVal.str "a")] ScriptLocal.init
      = .error "no implicit conversion into Float")
    ∧ (RubyRenderApp.sync_mesh (fun _ => 0) (fun _ => 1) 1 [] [] ScriptLocal.init
      = .ok { ScriptLocal.init with pending_meshes :=
          (ScriptLocal.init.pending_meshes.sync_mesh_standalone 1 MeshData.default
            MeshTransformData.default) })
    ∧ (RubyRenderApp.sync_sprite (fun _ => 0) (fun _ => 1) 1
        [("color_r", RVal.str "red")] [] ScriptLocal.init
      = .error "no implicit conversion into Float")
    ∧ (RubyRenderApp.sync_sprite (fun _ => 0) (fun _ => 1) 1 [] [] ScriptLocal.init
      = .ok { ScriptLocal.init with pending_sprites :=
          (ScriptLocal.init.pending_sprites.sync_sprite_standalone 1 SpriteData.default
            TransformData.default) })
    ∧ (RubyRenderApp.sync_text 1 [("content", RVal.int 3)] [] ScriptLocal.init
      = .error "no implicit conversion into String")
    ∧ (RubyRenderApp.sync_text 1 [] [] ScriptLocal.init
      = .ok { ScriptLocal.init with pending_texts :=
          (ScriptLocal.init.pending_texts.sync_text_standalone 1 TextData.default
            TextTransformData.default) })
    ∧ (shapeTypeOfTag 5 = ShapeType.rectangle
       ∧ parse_mesh_data [("shape_type", RVal.int 5)] = .ok MeshData.default) :=
  ⟨malformed_payload_staging.1 (fun _ => 0) (fun _ => 1) 1
      [("shape_type", RVal.str "circle")] [] ScriptLocal.init _ rfl,
   malformed_payload_staging.2.1 (fun _ => 0) (fun _ => 1) 1 []
      [("x", RVal.str "a")] ScriptLocal.init MeshData.default _ rfl rfl,
   malformed_payload_staging.2.2.1 (fun _ => 0) (fun _ => 1) 1 [] [] ScriptLocal.init
      MeshData.default MeshTransformData.default rfl rfl,
   malformed_payload_staging.2.2.2.1 (fun _ => 0) (fun _ => 1) 1
      [("color_r", RVal.str "red")] [] ScriptLocal.init _ rfl,
   malformed_payload_staging.2.2.2.2.1 (fun _ => 0) (fun _ => 1) 1 [] [] ScriptLocal.init
      SpriteData.default TransformData.default rfl rfl,
   malformed_payload_staging.2.2.2.2.2.1 1 [("content", RVal.int 3)] [] ScriptLocal.init
      _ rfl,
   malformed_payload_staging.2.2.2.2.2.2.1 1 [] [] ScriptLocal.init
      TextData.default TextTransformData.default rfl rfl,
   malformed_payload_staging.2.2.2.2.2.2.2 5 (by decide) (by decide) (by decide)
      (by decide) (by decide)⟩

end BevyRuby
